import Mathlib

/-!
Verification of the DWARF decoding library (packages garf, leb128, utils) of
the Eureka project, against its natural-language specification.

The Go sources are shallowly embedded: byte sections are lists of naturals
(each < 256 where it matters), Go readers (bytes.Reader) are a data list plus
a position, machine integers are naturals reduced modulo 2^width at the
operations where Go truncates, signed values are integers obtained by two's
complement reinterpretation, and fallible functions return an explicit
outcome type.  Functions keep the names of the Go functions they embed.
-/

namespace Eureka

/-- 2^64, the modulus of Go's uint64 arithmetic. -/
def U64MOD : Nat := 18446744073709551616

/-- 2^32, the modulus of Go's uint32 arithmetic. -/
def U32MOD : Nat := 4294967296

/-- 2^16, the modulus of Go's uint16 arithmetic. -/
def U16MOD : Nat := 65536

/-- Go's `x << s` on uint64: shift left, truncated to 64 bits. -/
def goShl64 (x s : Nat) : Nat := (x <<< s) % U64MOD

/-- Two's complement reinterpretation of a `w`-bit pattern as a signed value
(Go's intN types; `binary.Read` into intN). -/
def toSigned (w n : Nat) : Int :=
  if n % 2 ^ w < 2 ^ (w - 1) then (n % 2 ^ w : Int) else (n % 2 ^ w : Int) - (2 ^ w : Int)

/-- Errors returned by the Go code.  Go errors are `fmt.Errorf` values; we keep
the constant message text and the wrapping structure. -/
inductive DwErr : Type where
  | eof : DwErr
  | msg (s : String) : DwErr
  | wrap (s : String) (e : DwErr) : DwErr
deriving DecidableEq, Repr

/-- Outcome of running an embedded Go function: a value, a returned error, a
Go runtime panic (out-of-band failure, e.g. a nil-pointer dereference), or
fuel exhaustion of the embedding (never an actual behaviour of the code). -/
inductive GoOut (α : Type) : Type where
  | ok (a : α) : GoOut α
  | err (e : DwErr) : GoOut α
  | goPanic : GoOut α
  | noFuel : GoOut α
deriving DecidableEq, Repr

/-- Byte-order of multi-byte fixed width fields (golf.ELF.Endianess). -/
inductive Endian : Type where
  | little : Endian
  | big : Endian
deriving DecidableEq, Repr

/-- Go's bytes.Reader: the underlying byte slice and a read position. -/
structure Reader : Type where
  data : List Nat
  pos : Nat
deriving DecidableEq, Repr

namespace Reader

/-- bytes.Reader.Size(). -/
def size (r : Reader) : Nat := r.data.length

/-- bytes.Reader.Len(): remaining unread bytes (0 when past the end). -/
def len (r : Reader) : Nat := r.size - r.pos

/-- The unread suffix of the data. -/
def rest (r : Reader) : List Nat := r.data.drop r.pos

/-- Advance the position by `k` bytes. -/
def advance (r : Reader) (k : Nat) : Reader := ⟨r.data, r.pos + k⟩

/-- bytes.Reader.Seek(offset, 0). -/
def seek (r : Reader) (offset : Nat) : Reader := ⟨r.data, offset⟩

/-- bytes.Reader.ReadByte(): the byte at the position, or none at EOF. -/
def readByte (r : Reader) : Option (Nat × Reader) :=
  match r.data.get? r.pos with
  | none => none
  | some b => some (b, r.advance 1)

end Reader

/-! ## LEB128 primitives (package leb128, file leb128.go) -/

/-- Loop body of leb128.ReadUnsigned: Go's
`res |= uint64(b&0x7f) << shift` accumulation, stopping at the first byte
with high bit clear.  Returns the accumulated uint64 and the number of bytes
consumed. -/
def readUnsignedLoop : List Nat → Nat → Nat → Option (Nat × Nat)
  | [], _, _ => none
  | b :: bs, shift, res =>
    let res' := res ||| goShl64 (b &&& 0x7f) shift
    if b &&& 0x80 == 0 then
      some (res', 1)
    else
      match readUnsignedLoop bs (shift + 7) res' with
      | none => none
      | some (v, k) => some (v, k + 1)

/-- leb128.ReadUnsigned. -/
def ReadUnsigned (r : Reader) : Option (Nat × Reader) :=
  match readUnsignedLoop r.rest 0 0 with
  | none => none
  | some (res, k) => some (res, r.advance k)

/-- Loop body of leb128.ReadSigned: same accumulation, but the shift is
incremented before the termination test and the last byte is remembered.
Returns (res, final shift, last byte, bytes consumed). -/
def readSignedLoop : List Nat → Nat → Nat → Option (Nat × Nat × Nat × Nat)
  | [], _, _ => none
  | b :: bs, shift, res =>
    let res' := res ||| goShl64 (b &&& 0x7f) shift
    let shift' := shift + 7
    if b &&& 0x80 == 0 then
      some (res', shift', b, 1)
    else
      match readSignedLoop bs shift' res' with
      | none => none
      | some (v, sh, lb, k) => some (v, sh, lb, k + 1)

/-- leb128.ReadSigned.  The Go function returns int64(res); we return the
64-bit pattern `res` (its two's complement reading is `toSigned 64`). -/
def ReadSigned (r : Reader) : Option (Nat × Reader) :=
  match readSignedLoop r.rest 0 0 with
  | none => none
  | some (res, shift, lastByte, k) =>
    let res' :=
      if shift < 64 && lastByte &&& 0x40 != 0 then
        res ||| goShl64 (U64MOD - 1) shift
      else res
    some (res', r.advance k)

/-- Loop body of leb128.Read: collect the raw bytes of one LEB128 number. -/
def lebReadLoop : List Nat → Option (List Nat × Nat)
  | [] => none
  | b :: bs =>
    if b &&& 0x80 == 0 then
      some ([b], 1)
    else
      match lebReadLoop bs with
      | none => none
      | some (n, k) => some (b :: n, k + 1)

/-- leb128.Read: read one raw LEB128 byte sequence. -/
def lebRead (r : Reader) : Option (List Nat × Reader) :=
  match lebReadLoop r.rest with
  | none => none
  | some (n, k) => some (n, r.advance k)

/-! ## Specification-side description of LEB128 (for the refinement claim C8)

`lebSpecDecode` follows the words of the specification: consume bytes until
one with high bit clear, accumulate the low 7 bits of each, little-endian.
It returns the exact (untruncated) accumulated value, the number of bytes
consumed, and the final byte. -/

/-- Modelled from the spec: little-endian accumulation of the low 7 bits of
each consumed byte, stopping at the first byte with high bit clear; none when
the stream ends mid-sequence. -/
def lebSpecDecode : List Nat → Option (Nat × Nat × Nat)
  | [] => none
  | b :: bs =>
    if b % 256 < 128 then
      some (b % 128, 1, b)
    else
      match lebSpecDecode bs with
      | none => none
      | some (v, k, lb) => some (b % 128 + 128 * v, k + 1, lb)

/-! ## Correctness of the LEB128 embedding against the spec description (C8) -/

theorem and127_eq_mod (b : Nat) : b &&& 0x7f = b % 128 := by
  simpa using Nat.and_pow_two_sub_one_eq_mod b 7

theorem and128_eq_zero_iff (b : Nat) : b &&& 0x80 = 0 ↔ b % 256 < 128 := by
  have h : b &&& 0x80 = (b.testBit 7).toNat * 2 ^ 7 := by
    simpa using Nat.and_two_pow b 7
  rw [h, Nat.testBit_to_div_mod]
  rcases Nat.lt_or_ge (b % 256) 128 with hlt | hge
  · have : b / 128 % 2 = 0 := by omega
    simp [this]
    omega
  · have : b / 128 % 2 = 1 := by omega
    simp [this]
    omega

theorem lor_mul_two_pow_add {a : Nat} (t s : Nat) (ha : a < 2 ^ s) :
    a ||| t * 2 ^ s = t * 2 ^ s + a := by
  apply Nat.eq_of_testBit_eq
  intro j
  rw [Nat.mul_comm t (2 ^ s)]
  rw [Nat.testBit_or, Nat.testBit_mul_pow_two_add t ha j, Nat.testBit_mul_pow_two]
  by_cases h : j < s
  · simp [h, Nat.not_le_of_lt h]
  · have hle : s ≤ j := Nat.le_of_not_lt h
    have : a.testBit j = false :=
      Nat.testBit_lt_two_pow (Nat.lt_of_lt_of_le ha (Nat.pow_le_pow_right (by omega) hle))
    simp [h, hle, this]

theorem goShl64_or_step {res : Nat} (b shift : Nat)
    (hres : res < 2 ^ min shift 64) :
    res ||| goShl64 (b &&& 0x7f) shift = (res + b % 128 * 2 ^ shift) % U64MOD := by
  have hM : U64MOD = 2 ^ 64 := by norm_num [U64MOD]
  rw [and127_eq_mod, goShl64, Nat.shiftLeft_eq, hM]
  set c := b % 128 with hc
  rcases Nat.lt_or_ge shift 64 with hlt | hge
  · have hms : min shift 64 = shift := by omega
    rw [hms] at hres
    have e : (2 : Nat) ^ shift * 2 ^ (64 - shift) = 2 ^ 64 := by
      rw [← Nat.pow_add]; congr 1; omega
    have hmod : c * 2 ^ shift % 2 ^ 64 = c % 2 ^ (64 - shift) * 2 ^ shift := by
      conv_lhs => rw [show (2 : Nat) ^ 64 = 2 ^ (64 - shift) * 2 ^ shift by rw [← e]; ring]
      rw [Nat.mul_mod_mul_right]
    rw [hmod, lor_mul_two_pow_add _ _ hres]
    have hct : c % 2 ^ (64 - shift) < 2 ^ (64 - shift) :=
      Nat.mod_lt _ (Nat.two_pow_pos _)
    have hlt2 : c % 2 ^ (64 - shift) * 2 ^ shift + res < 2 ^ 64 := by
      have h1 : c % 2 ^ (64 - shift) * 2 ^ shift ≤ (2 ^ (64 - shift) - 1) * 2 ^ shift :=
        Nat.mul_le_mul_right _ (by omega)
      have h2 : (2 ^ (64 - shift) - 1) * 2 ^ shift + 2 ^ shift = 2 ^ 64 := by
        have hpos : 1 ≤ (2 : Nat) ^ (64 - shift) := Nat.one_le_two_pow
        calc (2 ^ (64 - shift) - 1) * 2 ^ shift + 2 ^ shift
            = ((2 ^ (64 - shift) - 1) + 1) * 2 ^ shift := by ring
          _ = 2 ^ (64 - shift) * 2 ^ shift := by rw [Nat.sub_add_cancel hpos]
          _ = 2 ^ 64 := by rw [← e]; ring
      omega
    have hdecomp : c * 2 ^ shift
        = c % 2 ^ (64 - shift) * 2 ^ shift + c / 2 ^ (64 - shift) * 2 ^ 64 := by
      calc c * 2 ^ shift
          = (c % 2 ^ (64 - shift) + 2 ^ (64 - shift) * (c / 2 ^ (64 - shift))) * 2 ^ shift := by
            rw [Nat.mod_add_div]
        _ = c % 2 ^ (64 - shift) * 2 ^ shift
            + c / 2 ^ (64 - shift) * (2 ^ shift * 2 ^ (64 - shift)) := by ring
        _ = c % 2 ^ (64 - shift) * 2 ^ shift + c / 2 ^ (64 - shift) * 2 ^ 64 := by rw [e]
    rw [hdecomp, ← Nat.add_assoc, Nat.add_mul_mod_self_right,
      Nat.mod_eq_of_lt (show res + c % 2 ^ (64 - shift) * 2 ^ shift < 2 ^ 64 by omega)]
    omega
  · have hms : min shift 64 = 64 := by omega
    rw [hms] at hres
    have hdvd : (2 : Nat) ^ 64 ∣ c * 2 ^ shift :=
      Dvd.dvd.mul_left (Nat.pow_dvd_pow 2 hge) c
    have hz : c * 2 ^ shift % 2 ^ 64 = 0 := Nat.mod_eq_zero_of_dvd hdvd
    rw [hz, Nat.or_zero, Nat.add_mod, hz, Nat.add_zero,
      Nat.mod_eq_of_lt hres, Nat.mod_eq_of_lt hres]

theorem readUnsignedLoop_spec (bs : List Nat) :
    ∀ shift res, res < 2 ^ min shift 64 →
    match lebSpecDecode bs with
    | none => readUnsignedLoop bs shift res = none
    | some (v, k, _) =>
        readUnsignedLoop bs shift res = some ((res + v * 2 ^ shift) % U64MOD, k) := by
  induction bs with
  | nil => intro shift res _; simp [lebSpecDecode, readUnsignedLoop]
  | cons b bs ih =>
    intro shift res hres
    by_cases hb : b % 256 < 128
    · have hc : b &&& 0x80 = 0 := (and128_eq_zero_iff b).mpr hb
      have hstep := @goShl64_or_step res b shift hres
      simp only [lebSpecDecode, hb, if_true]
      simp [readUnsignedLoop, hc, hstep]
    · have hc : ¬ b &&& 0x80 = 0 := fun h => hb ((and128_eq_zero_iff b).mp h)
      have hcond : (b &&& 0x80 == 0) = false := by simp [hc]
      have hstep := @goShl64_or_step res b shift hres
      have hres' : (res + b % 128 * 2 ^ shift) % U64MOD < 2 ^ min (shift + 7) 64 := by
        have hM : U64MOD = 2 ^ 64 := by norm_num [U64MOD]
        rcases Nat.lt_or_ge (shift + 7) 64 with h7 | h7
        · have hms : min shift 64 = shift := by omega
          have hms' : min (shift + 7) 64 = shift + 7 := by omega
          rw [hms']
          have h1 : res < 2 ^ shift := by rw [hms] at hres; exact hres
          have h2 : b % 128 * 2 ^ shift ≤ 127 * 2 ^ shift :=
            Nat.mul_le_mul_right _ (by omega)
          have h3 : res + b % 128 * 2 ^ shift < 128 * 2 ^ shift := by omega
          have h4 : (128 : Nat) * 2 ^ shift = 2 ^ (shift + 7) := by
            rw [Nat.pow_add]; ring
          calc (res + b % 128 * 2 ^ shift) % U64MOD ≤ res + b % 128 * 2 ^ shift :=
                Nat.mod_le _ _
            _ < 2 ^ (shift + 7) := by omega
        · have hms' : min (shift + 7) 64 = 64 := by omega
          rw [hms', ← hM]
          exact Nat.mod_lt _ (by norm_num [U64MOD])
      have ihr := ih (shift + 7) ((res + b % 128 * 2 ^ shift) % U64MOD) hres'
      simp only [lebSpecDecode, hb, if_false]
      rcases hspec : lebSpecDecode bs with _ | ⟨v, k, lb⟩ <;>
        rw [hspec] at ihr <;> dsimp only at ihr
      · simp [readUnsignedLoop, hcond, hstep, ihr]
      · have hmm : ((res + b % 128 * 2 ^ shift) % U64MOD + v * 2 ^ (shift + 7)) % U64MOD
            = (res + (b % 128 + 128 * v) * 2 ^ shift) % U64MOD := by
          rw [Nat.mod_add_mod]
          congr 1
          rw [Nat.pow_add]
          ring
        simp only [readUnsignedLoop, hcond, if_false, hstep, ihr, hmm]
        simp

theorem readSignedLoop_spec (bs : List Nat) :
    ∀ shift res, res < 2 ^ min shift 64 →
    match lebSpecDecode bs with
    | none => readSignedLoop bs shift res = none
    | some (v, k, lb) =>
        readSignedLoop bs shift res
          = some ((res + v * 2 ^ shift) % U64MOD, shift + 7 * k, lb, k) := by
  induction bs with
  | nil => intro shift res _; simp [lebSpecDecode, readSignedLoop]
  | cons b bs ih =>
    intro shift res hres
    by_cases hb : b % 256 < 128
    · have hc : b &&& 0x80 = 0 := (and128_eq_zero_iff b).mpr hb
      have hstep := @goShl64_or_step res b shift hres
      simp only [lebSpecDecode, hb, if_true]
      simp [readSignedLoop, hc, hstep]
    · have hc : ¬ b &&& 0x80 = 0 := fun h => hb ((and128_eq_zero_iff b).mp h)
      have hcond : (b &&& 0x80 == 0) = false := by simp [hc]
      have hstep := @goShl64_or_step res b shift hres
      have hres' : (res + b % 128 * 2 ^ shift) % U64MOD < 2 ^ min (shift + 7) 64 := by
        have hM : U64MOD = 2 ^ 64 := by norm_num [U64MOD]
        rcases Nat.lt_or_ge (shift + 7) 64 with h7 | h7
        · have hms : min shift 64 = shift := by omega
          have hms' : min (shift + 7) 64 = shift + 7 := by omega
          rw [hms']
          have h1 : res < 2 ^ shift := by rw [hms] at hres; exact hres
          have h2 : b % 128 * 2 ^ shift ≤ 127 * 2 ^ shift :=
            Nat.mul_le_mul_right _ (by omega)
          have h4 : (128 : Nat) * 2 ^ shift = 2 ^ (shift + 7) := by
            rw [Nat.pow_add]; ring
          calc (res + b % 128 * 2 ^ shift) % U64MOD ≤ res + b % 128 * 2 ^ shift :=
                Nat.mod_le _ _
            _ < 2 ^ (shift + 7) := by omega
        · have hms' : min (shift + 7) 64 = 64 := by omega
          rw [hms', ← hM]
          exact Nat.mod_lt _ (by norm_num [U64MOD])
      have ihr := ih (shift + 7) ((res + b % 128 * 2 ^ shift) % U64MOD) hres'
      simp only [lebSpecDecode, hb, if_false]
      rcases hspec : lebSpecDecode bs with _ | ⟨v, k, lb⟩ <;>
        rw [hspec] at ihr <;> dsimp only at ihr
      · simp [readSignedLoop, hcond, hstep, ihr]
      · have hmm : ((res + b % 128 * 2 ^ shift) % U64MOD + v * 2 ^ (shift + 7)) % U64MOD
            = (res + (b % 128 + 128 * v) * 2 ^ shift) % U64MOD := by
          rw [Nat.mod_add_mod]
          congr 1
          rw [Nat.pow_add]
          ring
        simp only [readSignedLoop, hcond, if_false, hstep, ihr, hmm]
        simp
        omega

/-- C8: for every byte stream, leb128.ReadUnsigned returns the little-endian
accumulation of the low 7 bits of each consumed byte (as a uint64, i.e.
modulo 2^64), stopping at the first byte with high bit clear, and fails
exactly when the stream ends before such a byte; leb128.ReadSigned computes
the same accumulation and additionally sign-extends the 64-bit result from
bit 6 of the final byte when the total shift (7 bits per byte) is below
64. -/
theorem c8_leb128_read_unsigned_signed (r : Reader) :
    (lebSpecDecode r.rest = none → ReadUnsigned r = none ∧ ReadSigned r = none) ∧
    (∀ v k lb, lebSpecDecode r.rest = some (v, k, lb) →
      ReadUnsigned r = some (v % U64MOD, r.advance k) ∧
      ReadSigned r = some
        ((if 7 * k < 64 ∧ lb &&& 0x40 ≠ 0 then
            v % U64MOD ||| goShl64 (U64MOD - 1) (7 * k)
          else v % U64MOD), r.advance k)) := by
  have h0 : (0 : Nat) < 2 ^ min 0 64 := by norm_num
  have hu := readUnsignedLoop_spec r.rest 0 0 h0
  have hs := readSignedLoop_spec r.rest 0 0 h0
  constructor
  · intro hnone
    rw [hnone] at hu hs
    dsimp only at hu hs
    constructor
    · rw [ReadUnsigned, hu]
    · rw [ReadSigned, hs]
  · intro v k lb hsome
    rw [hsome] at hu hs
    dsimp only at hu hs
    constructor
    · rw [ReadUnsigned, hu]
      simp
    · rw [ReadSigned, hs]
      simp only [Nat.zero_add, Nat.pow_zero, Nat.mul_one]
      by_cases hlt : 7 * k < 64 <;> by_cases hbit : lb &&& 0x40 = 0 <;>
        simp [hlt, hbit]

/-- Witness for C8: the library's own test vector 0xE5 0x8E 0x26 decodes to
624485 and consumes all three bytes. -/
theorem c8_leb128_read_witness :
    ReadUnsigned ⟨[0xE5, 0x8E, 0x26], 0⟩
      = some (624485 % U64MOD, Reader.advance ⟨[0xE5, 0x8E, 0x26], 0⟩ 3) :=
  ((c8_leb128_read_unsigned_signed ⟨[0xE5, 0x8E, 0x26], 0⟩).2 624485 3 0x26
    (by decide)).1

/-! ## Abbreviation-table decoder (garf.go, DwData.AbbrevTable) -/

/-- DWARF attribute-name codes (type DwAt). -/
abbrev DwAt := Nat

/-- DWARF form codes (type DwForm). -/
abbrev DwForm := Nat

/-- DWARF tag codes (type DwTag). -/
abbrev DwTag := Nat

/-- Modelled from the spec: the constant file defining NullAbbrevEntry is not
among the sources; the zero code terminates a table. -/
def NullAbbrevEntry : Nat := 0

/-- Modelled from the spec: DW_CHILDREN_yes = 1 (has-children byte, 1 = yes).
The DWARF constants file is not among the sources. -/
def DW_CHILDREN_yes : Nat := 1

/-- garf.AttrForm: one (attribute name, form) declaration. -/
structure AttrForm : Type where
  Name : DwAt
  Form : DwForm
deriving DecidableEq, Repr

/-- garf.AbbrevEntry. -/
structure AbbrevEntry : Type where
  AbbrevCode : Nat
  Tag : DwTag
  HasChildren : Bool
  AttrForms : List AttrForm
deriving DecidableEq, Repr

/-- garf.AbbrevTable: a Go map from abbreviation code to entry. -/
def AbbrevTable : Type := Nat → Option AbbrevEntry

/-- The empty Go map. -/
def AbbrevTable.empty : AbbrevTable := fun _ => none

/-- Go map insertion: `table[code] = entry` (overwrites an existing key). -/
def AbbrevTable.insert (t : AbbrevTable) (c : Nat) (e : AbbrevEntry) : AbbrevTable :=
  fun x => if x = c then some e else t x

/-- Inner loop of DwData.AbbrevTable: read (name, form) LEB128 pairs until
both are zero. -/
def readAttrFormsLoop : Nat → Reader → List AttrForm → GoOut (List AttrForm × Reader)
  | 0, _, _ => .noFuel
  | fuel + 1, r, acc =>
    match ReadUnsigned r with
    | none => .err (.msg "Error reading an attr name of entry with abbrev code.")
    | some (attr, r1) =>
      match ReadUnsigned r1 with
      | none => .err (.msg "Error reading an attr form of entry with abbrev code.")
      | some (form, r2) =>
        if form == 0 && attr == 0 then
          .ok (acc, r2)
        else
          readAttrFormsLoop fuel r2 (acc ++ [⟨attr, form⟩])

/-- Outer loop of DwData.AbbrevTable: read entries until the zero code. -/
def abbrevTableLoop : Nat → Reader → AbbrevTable → GoOut AbbrevTable
  | 0, _, _ => .noFuel
  | fuel + 1, r, table =>
    match ReadUnsigned r with
    | none => .err (.msg "Error reading abbreviation code.")
    | some (abbrevCode, r1) =>
      if abbrevCode == NullAbbrevEntry then
        .ok table
      else
        match ReadUnsigned r1 with
        | none => .err (.msg "Error reading tag for abbrev code.")
        | some (tag, r2) =>
          match r2.readByte with
          | none => .err (.msg "Error reading child determination entry for abbrev code.")
          | some (hasChildren, r3) =>
            match readAttrFormsLoop fuel r3 [] with
            | .noFuel => .noFuel
            | .goPanic => .goPanic
            | .err e => .err e
            | .ok (attrForms, r4) =>
              abbrevTableLoop fuel r4
                (table.insert abbrevCode
                  ⟨abbrevCode, tag, hasChildren == DW_CHILDREN_yes, attrForms⟩)

/-- garf.DwData: the top-level container.  The golf.ELF section map is
modelled by one optional list of sections per section name the decoder
reads; AddressSize and Endianess come from the ELF header. -/
structure DwData : Type where
  debug_info : Option (List (List Nat))
  debug_abbrev : Option (List (List Nat))
  debug_str : Option (List (List Nat))
  debug_loc : Option (List (List Nat))
  debug_ranges : Option (List (List Nat))
  addressSize : Nat
  endianess : Endian

/-- DwData.AbbrevTable: decode the abbreviation table at `offset` of
.debug_abbrev. -/
def DwData.AbbrevTable (d : DwData) (offset : Nat) (fuel : Nat) : GoOut Eureka.AbbrevTable :=
  match d.debug_abbrev with
  | none => .err (.msg ".debug_abbrev section is not present.")
  | some sections =>
    if sections.length > 1 then
      .err (.msg "More than one .debug_abbrev sections.")
    else
      match sections.head? with
      | none => .goPanic
      | some sect =>
        abbrevTableLoop fuel ((Reader.mk sect 0).seek offset) AbbrevTable.empty

/-- Observe the table's binding at a code when decoding succeeded. -/
def abbrevLookup (g : GoOut AbbrevTable) (c : Nat) : Option (Option AbbrevEntry) :=
  match g with
  | .ok t => some (t c)
  | _ => none

/-- C4 counterexample: a table whose sole entry carries has-children byte 2
decodes without any error (recording no-children); a table with two entries
of the same code 1 also decodes without any error, the second entry silently
replacing the first.  The decoder never reports MalformedAbbrev. -/
theorem c4_abbrev_malformed_counterexample :
    abbrevLookup
      (DwData.AbbrevTable
        ⟨none, some [[3, 17, 2, 0, 0, 0]], none, none, none, 8, .little⟩ 0 12) 3
      = some (some ⟨3, 17, false, []⟩) ∧
    abbrevLookup
      (DwData.AbbrevTable
        ⟨none, some [[1, 17, 2, 0, 0, 1, 36, 1, 0, 0, 0]], none, none, none, 8, .little⟩
        0 12) 1
      = some (some ⟨1, 36, true, []⟩) := by
  decide

/-- C4 (amended): the abbreviation-table decoder accepts any has-children
byte, recording has-children = (byte = 1) and never failing on other values;
an entry whose code duplicates an earlier one silently overwrites it; and a
successfully returned table maps only non-zero codes, each to an entry
carrying that code, decoding stopping at code 0. -/
theorem c4_abbrev_table_amended :
    (∀ fuel (r : Reader) (t : AbbrevTable) code r1 tag r2 hc r3 afs r4,
        ReadUnsigned r = some (code, r1) → code ≠ 0 →
        ReadUnsigned r1 = some (tag, r2) →
        r2.readByte = some (hc, r3) →
        readAttrFormsLoop fuel r3 [] = .ok (afs, r4) →
        abbrevTableLoop (fuel + 1) r t
          = abbrevTableLoop fuel r4
              (t.insert code ⟨code, tag, hc == DW_CHILDREN_yes, afs⟩)) ∧
    (∀ fuel (r : Reader) (t : AbbrevTable) r1,
        ReadUnsigned r = some (0, r1) →
        abbrevTableLoop (fuel + 1) r t = .ok t) ∧
    (∀ (t : AbbrevTable) c e, (t.insert c e) c = some e) ∧
    (∀ fuel (r : Reader) (t res : AbbrevTable),
        (∀ c e, t c = some e → c ≠ 0 ∧ e.AbbrevCode = c) →
        abbrevTableLoop fuel r t = .ok res →
        ∀ c e, res c = some e → c ≠ 0 ∧ e.AbbrevCode = c) := by
  refine ⟨?step, ?stop, ?ins, ?keys⟩
  case step =>
    intro fuel r t code r1 tag r2 hc r3 afs r4 h1 hz h2 h3 h4
    have hc0 : (code == NullAbbrevEntry) = false := by
      simp [NullAbbrevEntry]; exact hz
    simp only [abbrevTableLoop, h1, hc0, h2, h3, h4]
    simp
  case stop =>
    intro fuel r t r1 h1
    simp [abbrevTableLoop, h1, NullAbbrevEntry]
  case ins =>
    intro t c e
    simp [AbbrevTable.insert]
  case keys =>
    intro fuel
    induction fuel with
    | zero =>
      intro r t res hinv h
      simp [abbrevTableLoop] at h
    | succ n ihn =>
      intro r t res hinv h
      simp only [abbrevTableLoop] at h
      rcases hru : ReadUnsigned r with _ | ⟨code, r1⟩
      · rw [hru] at h; cases h
      · rw [hru] at h
        dsimp only at h
        by_cases hz : (code == NullAbbrevEntry) = true
        · rw [if_pos hz] at h
          cases h
          exact hinv
        · rw [if_neg hz] at h
          rcases hrt : ReadUnsigned r1 with _ | ⟨tag, r2⟩
          · rw [hrt] at h; cases h
          · rw [hrt] at h
            dsimp only at h
            rcases hrb : r2.readByte with _ | ⟨hcb, r3⟩
            · rw [hrb] at h; cases h
            · rw [hrb] at h
              dsimp only at h
              rcases hfl : readAttrFormsLoop n r3 [] with ⟨afs, r4⟩ | e | _ | _ <;>
                rw [hfl] at h <;> dsimp only at h
              rotate_left
              · cases h
              · cases h
              · cases h
              · refine ihn r4 _ res ?_ h
                intro c e hce
                by_cases hcc : c = code
                · subst hcc
                  have : (AbbrevTable.insert t c
                      ⟨c, tag, hcb == DW_CHILDREN_yes, afs⟩) c
                      = some ⟨c, tag, hcb == DW_CHILDREN_yes, afs⟩ := by
                    simp [AbbrevTable.insert]
                  rw [this] at hce
                  cases hce
                  refine ⟨?_, rfl⟩
                  simp [NullAbbrevEntry] at hz
                  exact hz
                · have : (AbbrevTable.insert t code
                      ⟨code, tag, hcb == DW_CHILDREN_yes, afs⟩) c = t c := by
                    simp [AbbrevTable.insert, hcc]
                  rw [this] at hce
                  exact hinv c e hce

/-- Witness for C4's amended theorem: a concrete one-entry table (code 5,
tag 17, has-children byte 7, one (3, 8) attribute-form pair) exercising the
step, stop, insert and key-soundness conjuncts. -/
theorem c4_abbrev_table_amended_witness :
    abbrevTableLoop 3 ⟨[5, 17, 7, 3, 8, 0, 0, 0], 0⟩ AbbrevTable.empty
      = abbrevTableLoop 2 ⟨[5, 17, 7, 3, 8, 0, 0, 0], 7⟩
          (AbbrevTable.empty.insert 5 ⟨5, 17, (7 : Nat) == DW_CHILDREN_yes, [⟨3, 8⟩]⟩) ∧
    (AbbrevTable.empty.insert 5 ⟨5, 17, false, [⟨3, 8⟩]⟩) 5
      = some ⟨5, 17, false, [⟨3, 8⟩]⟩ := by
  constructor
  · exact c4_abbrev_table_amended.1 2 ⟨[5, 17, 7, 3, 8, 0, 0, 0], 0⟩
      AbbrevTable.empty 5 ⟨[5, 17, 7, 3, 8, 0, 0, 0], 1⟩ 17
      ⟨[5, 17, 7, 3, 8, 0, 0, 0], 2⟩ 7 ⟨[5, 17, 7, 3, 8, 0, 0, 0], 3⟩
      [⟨3, 8⟩] ⟨[5, 17, 7, 3, 8, 0, 0, 0], 7⟩
      (by decide) (by decide) (by decide) (by decide) (by decide)
  · exact c4_abbrev_table_amended.2.2.1 AbbrevTable.empty 5 ⟨5, 17, false, [⟨3, 8⟩]⟩

/-! ## Fixed-width reads (encoding/binary.Read on a bytes.Reader) -/

/-- Read exactly `n` bytes; binary.Read fails when fewer remain. -/
def Reader.readBytes (r : Reader) (n : Nat) : Option (List Nat × Reader) :=
  if r.pos + n ≤ r.data.length then
    some ((r.data.drop r.pos).take n, r.advance n)
  else none

/-- Assemble bytes into an unsigned integer per the byte order. -/
def assemble (en : Endian) (bs : List Nat) : Nat :=
  match en with
  | .little => bs.foldr (fun b acc => b % 256 + 256 * acc) 0
  | .big => bs.foldl (fun acc b => acc * 256 + b % 256) 0

/-- binary.Read of an n-byte unsigned integer. -/
def Reader.readUint (r : Reader) (en : Endian) (n : Nat) : Option (Nat × Reader) :=
  match r.readBytes n with
  | none => none
  | some (bs, r') => some (assemble en bs, r')

/-! ## Unit enumeration (garf.go, DwData.CompUnits) -/

/-- garf.DwFormat. -/
inductive DwFormat : Type where
  | format32 : DwFormat
  | format64 : DwFormat
deriving DecidableEq, Repr

/-- Modelled from the spec: DW_UT_compile = 0x01 (the DWARF constants file is
not among the sources). -/
def DW_UT_compile : Nat := 0x01

/-- Modelled from the spec: DW_UT_type = 0x02 (the DWARF constants file is
not among the sources). -/
def DW_UT_type : Nat := 0x02

/-- garf.DwUnit (header data; the Go field `Type` is `unitType` here, and the
lazily-filled caches live in the decoder state instead). -/
structure DwUnit : Type where
  unitType : Nat
  Format : DwFormat
  AddressSize : Nat
  Version : Nat
  size : Nat
  debugAbbrevOffset : Nat
  headerOffset : Nat
  dataOffset : Nat
deriving DecidableEq, Repr

/-- The enumeration loop of DwData.CompUnits: read one unit header per
iteration, skip type units, and seek to headerOffset + size otherwise. -/
def compUnitsLoop : Nat → Endian → Reader → GoOut (List DwUnit)
  | 0, _, _ => .noFuel
  | fuel + 1, en, reader =>
    if reader.len == 0 then
      .ok []
    else
      let headerOffset := reader.size - reader.len
      match reader.readUint en 4 with
      | none => .err (.msg "Error reading first 32 bits of length of a unit in .debug_info.")
      | some (size32, r1) =>
        let step2 : GoOut (DwFormat × Nat × Reader) :=
          if size32 == 0xffffffff then
            match r1.readUint en 8 with
            | none => .err (.msg "Error reading 64-bit length of a unit in .debug_info.")
            | some (size64, r2) => .ok (.format64, size64, r2)
          else
            .ok (.format32, size32, r1)
        match step2 with
        | .noFuel => .noFuel
        | .goPanic => .goPanic
        | .err e => .err e
        | .ok (format, length, r2) =>
          match r2.readUint en 2 with
          | none => .err (.msg "Error reading version of a unit in .debug_info.")
          | some (version, r3) =>
            let step4 : GoOut (Nat × Reader) :=
              if 5 ≤ version then
                match r3.readUint en 1 with
                | none => .err (.msg "Error reading unit type of a unit in .debug_info.")
                | some (ut, r4) => .ok (ut, r4)
              else
                .ok (DW_UT_compile, r3)
            match step4 with
            | .noFuel => .noFuel
            | .goPanic => .goPanic
            | .err e => .err e
            | .ok (unitType, r4) =>
              let step5 : GoOut (Nat × Reader) :=
                match format with
                | .format32 =>
                  match r4.readUint en 4 with
                  | none => .err (.msg "Error reading 32-bit debug abbrev offset of a unit.")
                  | some (o, r5) => .ok (o, r5)
                | .format64 =>
                  match r4.readUint en 8 with
                  | none => .err (.msg "Error reading 64-bit debug abbrev offset of a unit.")
                  | some (o, r5) => .ok (o, r5)
              match step5 with
              | .noFuel => .noFuel
              | .goPanic => .goPanic
              | .err e => .err e
              | .ok (debugAbbrevOffset, r5) =>
                match r5.readUint en 1 with
                | none =>
                  .err (.msg "Error reading address size from a unit header in .debug_info.")
                | some (addrSize, r6) =>
                  if unitType == DW_UT_type then
                    compUnitsLoop fuel en r6
                  else
                    let size :=
                      match format with
                      | .format64 => length + 12
                      | .format32 => length + 4
                    let cu : DwUnit :=
                      { unitType := unitType
                        Format := format
                        AddressSize := addrSize
                        Version := version
                        size := size
                        debugAbbrevOffset := debugAbbrevOffset
                        headerOffset := headerOffset
                        dataOffset := r6.size - r6.len }
                    match compUnitsLoop fuel en (r6.seek (size + headerOffset)) with
                    | .noFuel => .noFuel
                    | .goPanic => .goPanic
                    | .err e => .err e
                    | .ok rest => .ok (cu :: rest)

/-- DwData.CompUnits (the memoisation of d.compUnits is semantically
transparent and not modelled). -/
def DwData.CompUnits (d : DwData) (fuel : Nat) : GoOut (List DwUnit) :=
  match d.debug_info with
  | none => .err (.msg ".debug_info section is not present.")
  | some sections =>
    if sections.length > 1 then
      .err (.msg "More than one .debug_info sections.")
    else
      match sections.head? with
      | none => .goPanic
      | some sect => compUnitsLoop fuel d.endianess (Reader.mk sect 0)

/-- C7: unit enumeration reads a 32-bit initial length; exactly when that
value is 0xFFFFFFFF it sets 64-bit format and reads a further 64-bit length;
the enumerated unit's size is length + 4 (format-32) or length + 12
(format-64); and enumeration continues at header_offset + size (the reader is
seeked there before the next unit is parsed).  Four conjuncts: format-32 and
format-64, each for a pre-v5 unit (no unit-type byte, type DW_UT_compile)
and for a v5-or-later unit whose unit-type byte is read after the version
and is not DW_UT_type (type units are skipped, not enumerated). -/
theorem c7_comp_units_enumeration :
    (∀ fuel en (r : Reader) size32 r1 version r2 abbrevOff r3 addrSize r4 rest,
      r.len ≠ 0 →
      r.readUint en 4 = some (size32, r1) → size32 ≠ 0xffffffff →
      r1.readUint en 2 = some (version, r2) → version < 5 →
      r2.readUint en 4 = some (abbrevOff, r3) →
      r3.readUint en 1 = some (addrSize, r4) →
      compUnitsLoop fuel en (r4.seek ((size32 + 4) + (r.size - r.len))) = .ok rest →
      compUnitsLoop (fuel + 1) en r = .ok
        ({ unitType := DW_UT_compile, Format := .format32, AddressSize := addrSize,
           Version := version, size := size32 + 4, debugAbbrevOffset := abbrevOff,
           headerOffset := r.size - r.len, dataOffset := r4.size - r4.len } :: rest)) ∧
    (∀ fuel en (r : Reader) size32 r1 version r2 ut r3 abbrevOff r4 addrSize r5 rest,
      r.len ≠ 0 →
      r.readUint en 4 = some (size32, r1) → size32 ≠ 0xffffffff →
      r1.readUint en 2 = some (version, r2) → 5 ≤ version →
      r2.readUint en 1 = some (ut, r3) → ut ≠ DW_UT_type →
      r3.readUint en 4 = some (abbrevOff, r4) →
      r4.readUint en 1 = some (addrSize, r5) →
      compUnitsLoop fuel en (r5.seek ((size32 + 4) + (r.size - r.len))) = .ok rest →
      compUnitsLoop (fuel + 1) en r = .ok
        ({ unitType := ut, Format := .format32, AddressSize := addrSize,
           Version := version, size := size32 + 4, debugAbbrevOffset := abbrevOff,
           headerOffset := r.size - r.len, dataOffset := r5.size - r5.len } :: rest)) ∧
    (∀ fuel en (r : Reader) r1 length64 r2 version r3 abbrevOff r4 addrSize r5 rest,
      r.len ≠ 0 →
      r.readUint en 4 = some (0xffffffff, r1) →
      r1.readUint en 8 = some (length64, r2) →
      r2.readUint en 2 = some (version, r3) → version < 5 →
      r3.readUint en 8 = some (abbrevOff, r4) →
      r4.readUint en 1 = some (addrSize, r5) →
      compUnitsLoop fuel en (r5.seek ((length64 + 12) + (r.size - r.len))) = .ok rest →
      compUnitsLoop (fuel + 1) en r = .ok
        ({ unitType := DW_UT_compile, Format := .format64, AddressSize := addrSize,
           Version := version, size := length64 + 12, debugAbbrevOffset := abbrevOff,
           headerOffset := r.size - r.len, dataOffset := r5.size - r5.len } :: rest)) ∧
    (∀ fuel en (r : Reader) r1 length64 r2 version r3 ut r4 abbrevOff r5 addrSize r6 rest,
      r.len ≠ 0 →
      r.readUint en 4 = some (0xffffffff, r1) →
      r1.readUint en 8 = some (length64, r2) →
      r2.readUint en 2 = some (version, r3) → 5 ≤ version →
      r3.readUint en 1 = some (ut, r4) → ut ≠ DW_UT_type →
      r4.readUint en 8 = some (abbrevOff, r5) →
      r5.readUint en 1 = some (addrSize, r6) →
      compUnitsLoop fuel en (r6.seek ((length64 + 12) + (r.size - r.len))) = .ok rest →
      compUnitsLoop (fuel + 1) en r = .ok
        ({ unitType := ut, Format := .format64, AddressSize := addrSize,
           Version := version, size := length64 + 12, debugAbbrevOffset := abbrevOff,
           headerOffset := r.size - r.len, dataOffset := r6.size - r6.len } :: rest)) := by
  refine ⟨?_, ?_, ?_, ?_⟩
  · intro fuel en r size32 r1 version r2 abbrevOff r3 addrSize r4 rest
      hlen h1 hne h2 hv h3 h4 hrest
    have hl : (r.len == 0) = false := by simp [hlen]
    have hne' : (size32 == 0xffffffff) = false := by simp [hne]
    have hversion : ¬ 5 ≤ version := by omega
    have ht : (DW_UT_compile == DW_UT_type) = false := by decide
    simp [compUnitsLoop, hl, hne', h1, h2, h3, h4, ht, hrest, hversion]
  · intro fuel en r size32 r1 version r2 ut r3 abbrevOff r4 addrSize r5 rest
      hlen h1 hne h2 hv hu hut h3 h4 hrest
    have hl : (r.len == 0) = false := by simp [hlen]
    have hne' : (size32 == 0xffffffff) = false := by simp [hne]
    have ht : (ut == DW_UT_type) = false := by simp [hut]
    simp [compUnitsLoop, hl, hne', h1, h2, hv, hu, h3, h4, ht, hrest]
  · intro fuel en r r1 length64 r2 version r3 abbrevOff r4 addrSize r5 rest
      hlen h1 h2 h3 hv h4 h5 hrest
    have hl : (r.len == 0) = false := by simp [hlen]
    have hversion : ¬ 5 ≤ version := by omega
    have ht : (DW_UT_compile == DW_UT_type) = false := by decide
    simp [compUnitsLoop, hl, h1, h2, h3, h4, h5, ht, hrest, hversion]
  · intro fuel en r r1 length64 r2 version r3 ut r4 abbrevOff r5 addrSize r6 rest
      hlen h1 h2 h3 hv hu hut h4 h5 hrest
    have hl : (r.len == 0) = false := by simp [hlen]
    have ht : (ut == DW_UT_type) = false := by simp [hut]
    simp [compUnitsLoop, hl, h1, h2, h3, hv, hu, h4, h5, ht, hrest]

/-- Witness for C7: a concrete .debug_info byte image holding a twelve-byte
version-5 format-32 compile unit (unit-type byte 1) followed by an
eleven-byte version-4 format-32 unit; the v5 arm of the theorem enumerates
the first unit with the tail given by the pre-v5 arm applied to the second,
whose own tail is the empty enumeration at the end of the section. -/
theorem c7_comp_units_enumeration_witness :
    compUnitsLoop 3 .little
        (Reader.mk [8, 0, 0, 0, 5, 0, 1, 0, 0, 0, 0, 8, 7, 0, 0, 0, 4, 0, 0, 0, 0, 0, 8] 0)
      = .ok
        [{ unitType := DW_UT_compile, Format := .format32, AddressSize := 8,
           Version := 5, size := 12, debugAbbrevOffset := 0,
           headerOffset := 0, dataOffset := 12 },
         { unitType := DW_UT_compile, Format := .format32, AddressSize := 8,
           Version := 4, size := 11, debugAbbrevOffset := 0,
           headerOffset := 12, dataOffset := 23 }] := by
  have h2 := c7_comp_units_enumeration.1 1 .little
    ⟨[8, 0, 0, 0, 5, 0, 1, 0, 0, 0, 0, 8, 7, 0, 0, 0, 4, 0, 0, 0, 0, 0, 8], 12⟩
    7 ⟨[8, 0, 0, 0, 5, 0, 1, 0, 0, 0, 0, 8, 7, 0, 0, 0, 4, 0, 0, 0, 0, 0, 8], 16⟩
    4 ⟨[8, 0, 0, 0, 5, 0, 1, 0, 0, 0, 0, 8, 7, 0, 0, 0, 4, 0, 0, 0, 0, 0, 8], 18⟩
    0 ⟨[8, 0, 0, 0, 5, 0, 1, 0, 0, 0, 0, 8, 7, 0, 0, 0, 4, 0, 0, 0, 0, 0, 8], 22⟩
    8 ⟨[8, 0, 0, 0, 5, 0, 1, 0, 0, 0, 0, 8, 7, 0, 0, 0, 4, 0, 0, 0, 0, 0, 8], 23⟩
    []
    (by decide) (by decide) (by decide) (by decide) (by decide) (by decide)
    (by decide) (by decide)
  have h1 := c7_comp_units_enumeration.2.1 2 .little
    (Reader.mk [8, 0, 0, 0, 5, 0, 1, 0, 0, 0, 0, 8, 7, 0, 0, 0, 4, 0, 0, 0, 0, 0, 8] 0)
    8 ⟨[8, 0, 0, 0, 5, 0, 1, 0, 0, 0, 0, 8, 7, 0, 0, 0, 4, 0, 0, 0, 0, 0, 8], 4⟩
    5 ⟨[8, 0, 0, 0, 5, 0, 1, 0, 0, 0, 0, 8, 7, 0, 0, 0, 4, 0, 0, 0, 0, 0, 8], 6⟩
    1 ⟨[8, 0, 0, 0, 5, 0, 1, 0, 0, 0, 0, 8, 7, 0, 0, 0, 4, 0, 0, 0, 0, 0, 8], 7⟩
    0 ⟨[8, 0, 0, 0, 5, 0, 1, 0, 0, 0, 0, 8, 7, 0, 0, 0, 4, 0, 0, 0, 0, 0, 8], 11⟩
    8 ⟨[8, 0, 0, 0, 5, 0, 1, 0, 0, 0, 0, 8, 7, 0, 0, 0, 4, 0, 0, 0, 0, 0, 8], 12⟩
    [{ unitType := DW_UT_compile, Format := .format32, AddressSize := 8,
       Version := 4, size := 11, debugAbbrevOffset := 0,
       headerOffset := 12, dataOffset := 23 }]
    (by decide) (by decide) (by decide) (by decide) (by decide) (by decide)
    (by decide) (by decide) (by decide) (by simpa using h2)
  simpa using h1

/-! ## DWARF form constants

Modelled from the spec: the Go file defining the DW_FORM_* constants is not
among the sources; the values are the standard DWARF codes the spec's form
names denote. -/

def DW_FORM_addr : Nat := 0x01
def DW_FORM_block2 : Nat := 0x03
def DW_FORM_block4 : Nat := 0x04
def DW_FORM_data2 : Nat := 0x05
def DW_FORM_data4 : Nat := 0x06
def DW_FORM_data8 : Nat := 0x07
def DW_FORM_string : Nat := 0x08
def DW_FORM_block : Nat := 0x09
def DW_FORM_block1 : Nat := 0x0a
def DW_FORM_data1 : Nat := 0x0b
def DW_FORM_flag : Nat := 0x0c
def DW_FORM_sdata : Nat := 0x0d
def DW_FORM_strp : Nat := 0x0e
def DW_FORM_udata : Nat := 0x0f
def DW_FORM_ref_addr : Nat := 0x10
def DW_FORM_ref1 : Nat := 0x11
def DW_FORM_ref2 : Nat := 0x12
def DW_FORM_ref4 : Nat := 0x13
def DW_FORM_ref8 : Nat := 0x14
def DW_FORM_ref_udata : Nat := 0x15
def DW_FORM_indirect : Nat := 0x16
def DW_FORM_sec_offset : Nat := 0x17
def DW_FORM_exprloc : Nat := 0x18
def DW_FORM_flag_present : Nat := 0x19
def DW_FORM_strx : Nat := 0x1a
def DW_FORM_ref_sup : Nat := 0x1c
def DW_FORM_str_sup : Nat := 0x1d
def DW_FORM_ref_sig8 : Nat := 0x20

/-! ## Form class predicates (dwform.go) -/

def DwForm.IsAddress (f : DwForm) : Bool := f == DW_FORM_addr

def DwForm.IsBlock (f : DwForm) : Bool :=
  f == DW_FORM_block1 || f == DW_FORM_block2 || f == DW_FORM_block4 || f == DW_FORM_block

def DwForm.IsFixedWidthConst (f : DwForm) : Bool :=
  f == DW_FORM_data1 || f == DW_FORM_data2 || f == DW_FORM_data4 || f == DW_FORM_data8

def DwForm.IsSignedVarWidthConst (f : DwForm) : Bool := f == DW_FORM_sdata

def DwForm.IsUnsignedVarWidthConst (f : DwForm) : Bool := f == DW_FORM_udata

def DwForm.IsConstant (f : DwForm) : Bool :=
  f.IsFixedWidthConst || f.IsSignedVarWidthConst || f.IsUnsignedVarWidthConst

def DwForm.IsExprLoc (f : DwForm) : Bool := f == DW_FORM_exprloc

def DwForm.IsFlag (f : DwForm) : Bool :=
  f == DW_FORM_flag || f == DW_FORM_flag_present

def DwForm.IsLinePtr (f : DwForm) : Bool := f == DW_FORM_sec_offset

def DwForm.IsLocListPtr (f : DwForm) : Bool := f == DW_FORM_sec_offset

def DwForm.IsRangeListPtr (f : DwForm) : Bool := f == DW_FORM_sec_offset

def DwForm.IsCompUnitRef (f : DwForm) : Bool :=
  f == DW_FORM_ref1 || f == DW_FORM_ref2 || f == DW_FORM_ref4 || f == DW_FORM_ref8
    || f == DW_FORM_ref_udata

def DwForm.IsGlobalRef (f : DwForm) : Bool := f == DW_FORM_ref_addr

def DwForm.IsSupRef (f : DwForm) : Bool := f == DW_FORM_ref_sup

def DwForm.IsTypeUnitRef (f : DwForm) : Bool := f == DW_FORM_ref_sig8

def DwForm.IsRef (f : DwForm) : Bool :=
  f.IsCompUnitRef || f.IsGlobalRef || f.IsSupRef || f.IsTypeUnitRef

def DwForm.IsString (f : DwForm) : Bool :=
  f == DW_FORM_string || f == DW_FORM_strp || f == DW_FORM_strx || f == DW_FORM_str_sup

/-! ## Integer attribute readers (dwattr.go) -/

/-- DwData.readAttrInt16: signed values as mathematical integers via two's
complement reinterpretation of the bytes read. -/
def readAttrInt16 (u : DwUnit) (r : Reader) (f : DwForm) (en : Endian) :
    GoOut (Int × Reader) :=
  if f == DW_FORM_data1 then
    match r.readUint en 1 with
    | none => .err (.wrap "Error reading data of form." .eof)
    | some (i, r') => .ok (toSigned 8 i, r')
  else if f == DW_FORM_data2 then
    match r.readUint en 2 with
    | none => .err (.wrap "Error reading data of form." .eof)
    | some (i, r') => .ok (toSigned 16 i, r')
  else if f == DW_FORM_sdata then
    match ReadSigned r with
    | none => .err (.wrap "Error reading data of form." .eof)
    | some (i, r') => .ok (toSigned 16 i, r')
  else
    .err (.msg "Cannot read data of form as int16 value")

/-- DwData.readAttrInt32. -/
def readAttrInt32 (u : DwUnit) (r : Reader) (f : DwForm) (en : Endian) :
    GoOut (Int × Reader) :=
  if f == DW_FORM_data1 then
    match r.readUint en 1 with
    | none => .err (.wrap "Error reading data of form." .eof)
    | some (i, r') => .ok (toSigned 8 i, r')
  else if f == DW_FORM_data2 then
    match r.readUint en 2 with
    | none => .err (.wrap "Error reading data of form." .eof)
    | some (i, r') => .ok (toSigned 16 i, r')
  else if f == DW_FORM_data4 then
    match r.readUint en 4 with
    | none => .err (.wrap "Error reading data of form." .eof)
    | some (i, r') => .ok (toSigned 32 i, r')
  else if f == DW_FORM_sdata then
    match ReadSigned r with
    | none => .err (.wrap "Error reading data of form." .eof)
    | some (i, r') => .ok (toSigned 32 i, r')
  else
    .err (.msg "Cannot read data of form as int32.")

/-- DwData.readAttrInt64. -/
def readAttrInt64 (u : DwUnit) (r : Reader) (f : DwForm) (en : Endian) :
    GoOut (Int × Reader) :=
  if f == DW_FORM_data1 then
    match r.readUint en 1 with
    | none => .err (.wrap "Error reading data of form." .eof)
    | some (i, r') => .ok (toSigned 8 i, r')
  else if f == DW_FORM_data2 then
    match r.readUint en 2 with
    | none => .err (.wrap "Error reading data of form." .eof)
    | some (i, r') => .ok (toSigned 16 i, r')
  else if f == DW_FORM_data4 then
    match r.readUint en 4 with
    | none => .err (.wrap "Error reading data of form." .eof)
    | some (i, r') => .ok (toSigned 32 i, r')
  else if f == DW_FORM_data8 then
    match r.readUint en 8 with
    | none => .err (.wrap "Error reading data of form." .eof)
    | some (i, r') => .ok (toSigned 64 i, r')
  else if f == DW_FORM_sdata then
    match ReadSigned r with
    | none => .err (.wrap "Error reading data of form." .eof)
    | some (i, r') => .ok (toSigned 64 i, r')
  else
    .err (.msg "Cannot read data of form as int64.")

/-- DwData.readAttrUint16.  Note the Go udata case truncates to 16 bits
(`return uint16(i), nil`) with no range check, and the default error text
says int16 (as in the source). -/
def readAttrUint16 (u : DwUnit) (r : Reader) (f : DwForm) (en : Endian) :
    GoOut (Nat × Reader) :=
  if f == DW_FORM_data1 then
    match r.readUint en 1 with
    | none => .err (.wrap "Error reading data of form." .eof)
    | some (i, r') => .ok (i, r')
  else if f == DW_FORM_data2 then
    match r.readUint en 2 with
    | none => .err (.wrap "Error reading data of form." .eof)
    | some (i, r') => .ok (i, r')
  else if f == DW_FORM_udata then
    match ReadUnsigned r with
    | none => .err (.wrap "Error reading data of form." .eof)
    | some (i, r') => .ok (i % U16MOD, r')
  else
    .err (.msg "Cannot read data of form as int16.")

/-- DwData.readAttrUint32 (udata truncates to 32 bits). -/
def readAttrUint32 (u : DwUnit) (r : Reader) (f : DwForm) (en : Endian) :
    GoOut (Nat × Reader) :=
  if f == DW_FORM_data1 then
    match r.readUint en 1 with
    | none => .err (.wrap "Error reading data of form." .eof)
    | some (i, r') => .ok (i, r')
  else if f == DW_FORM_data2 then
    match r.readUint en 2 with
    | none => .err (.wrap "Error reading data of form." .eof)
    | some (i, r') => .ok (i, r')
  else if f == DW_FORM_data4 then
    match r.readUint en 4 with
    | none => .err (.wrap "Error reading data of form." .eof)
    | some (i, r') => .ok (i, r')
  else if f == DW_FORM_udata then
    match ReadUnsigned r with
    | none => .err (.wrap "Error reading data of form." .eof)
    | some (i, r') => .ok (i % U32MOD, r')
  else
    .err (.msg "Cannot read data of form as uint32.")

/-- DwData.readAttrUint64.  The DW_FORM_sec_offset case declares a fresh
`err` with `:=`, shadowing the function's outer `err`; when the fixed-width
read fails there, the `break` reaches the trailing
`fmt.Errorf(..., err.Error())` with the outer err still nil, which
dereferences a nil interface: a Go runtime panic, modelled as goPanic. -/
def readAttrUint64 (u : DwUnit) (r : Reader) (f : DwForm) (en : Endian) :
    GoOut (Nat × Reader) :=
  if f == DW_FORM_data1 then
    match r.readUint en 1 with
    | none => .err (.wrap "Error reading data of form." .eof)
    | some (i, r') => .ok (i, r')
  else if f == DW_FORM_data2 then
    match r.readUint en 2 with
    | none => .err (.wrap "Error reading data of form." .eof)
    | some (i, r') => .ok (i, r')
  else if f == DW_FORM_data4 then
    match r.readUint en 4 with
    | none => .err (.wrap "Error reading data of form." .eof)
    | some (i, r') => .ok (i, r')
  else if f == DW_FORM_data8 then
    match r.readUint en 8 with
    | none => .err (.wrap "Error reading data of form." .eof)
    | some (i, r') => .ok (i, r')
  else if f == DW_FORM_udata then
    match ReadUnsigned r with
    | none => .err (.wrap "Error reading data of form." .eof)
    | some (i, r') => .ok (i, r')
  else if f == DW_FORM_addr then
    if u.AddressSize == 4 then
      match r.readUint en 4 with
      | none => .err (.wrap "Error reading data of form." .eof)
      | some (i, r') => .ok (i, r')
    else
      match r.readUint en 8 with
      | none => .err (.wrap "Error reading data of form." .eof)
      | some (i, r') => .ok (i, r')
  else if f == DW_FORM_sec_offset then
    match u.Format with
    | .format32 =>
      match r.readUint en 4 with
      | none => .goPanic
      | some (i, r') => .ok (i, r')
    | .format64 =>
      match r.readUint en 8 with
      | none => .goPanic
      | some (i, r') => .ok (i, r')
  else
    .err (.msg "Cannot read data of form as uint64.")

/-- DwData.readAttrFlag. -/
def readAttrFlag (u : DwUnit) (r : Reader) (f : DwForm) (en : Endian) :
    GoOut (Bool × Reader) :=
  if f == DW_FORM_flag then
    match r.readByte with
    | none => .err (.wrap "Erroring reading DW_FORM_flag value." .eof)
    | some (b, r') => .ok (b != 0, r')
  else if f == DW_FORM_flag_present then
    .ok (true, r)
  else
    .err (.msg "Cannot read data of form as a flag.")

/-- C5: decoding a DW_FORM_sec_offset attribute value that ends mid-field
does not return an error; it panics.  In a format-32 unit with only two bytes
left in the stream, readAttrUint64 reaches the trailing error-wrapping line
with the (shadowed) outer err still nil and dereferences it. -/
theorem c5_sec_offset_truncated_panics :
    readAttrUint64 ⟨DW_UT_compile, .format32, 8, 4, 0, 0, 0, 0⟩ ⟨[1, 2], 0⟩
      DW_FORM_sec_offset .little = .goPanic := by decide

/-- C9 counterexample: a DW_FORM_udata value 65536 read for a requested
uint16 does not fail OutOfRange; it is silently truncated to 0 (modulo 2^16)
and returned as a success. -/
theorem c9_narrowing_counterexample :
    readAttrUint16 ⟨DW_UT_compile, .format32, 8, 4, 0, 0, 0, 0⟩ ⟨[0x80, 0x80, 0x04], 0⟩
      DW_FORM_udata .little = .ok (0, ⟨[0x80, 0x80, 0x04], 3⟩) := by decide

/-- C9 (amended): smaller fixed-width forms are widened as the claim says
(data1 into a requested u16 zero-extends, data1 into a requested i16
sign-extends, data1 into a requested u64 zero-extends); a data8 into a
requested u16 fails, but with the unsupported-form error ("Cannot read data
of form as int16."), not an OutOfRange value check; and variable-width
values that do not fit are silently truncated: udata into u16 returns the
value modulo 2^16 and sdata into i16 reinterprets the low 16 bits, with no
error in either case. -/
theorem c9_width_widening_narrowing_amended :
    (∀ u (r : Reader) en b r', r.readUint en 1 = some (b, r') →
      readAttrUint16 u r DW_FORM_data1 en = .ok (b, r')) ∧
    (∀ u (r : Reader) en b r', r.readUint en 1 = some (b, r') →
      readAttrInt16 u r DW_FORM_data1 en = .ok (toSigned 8 b, r')) ∧
    (∀ u (r : Reader) en b r', r.readUint en 1 = some (b, r') →
      readAttrUint64 u r DW_FORM_data1 en = .ok (b, r')) ∧
    (∀ u (r : Reader) en,
      readAttrUint16 u r DW_FORM_data8 en
        = .err (.msg "Cannot read data of form as int16.")) ∧
    (∀ u (r : Reader) en v r', ReadUnsigned r = some (v, r') →
      readAttrUint16 u r DW_FORM_udata en = .ok (v % U16MOD, r')) ∧
    (∀ u (r : Reader) en v r', ReadSigned r = some (v, r') →
      readAttrInt16 u r DW_FORM_sdata en = .ok (toSigned 16 v, r')) := by
  refine ⟨?_, ?_, ?_, ?_, ?_, ?_⟩
  · intro u r en b r' h
    simp [readAttrUint16, h]
  · intro u r en b r' h
    simp [readAttrInt16, h]
  · intro u r en b r' h
    simp [readAttrUint64, h]
  · intro u r en
    simp [readAttrUint16, DW_FORM_data8, DW_FORM_data1, DW_FORM_data2, DW_FORM_udata]
  · intro u r en v r' h
    simp [readAttrUint16, h, DW_FORM_udata, DW_FORM_data1, DW_FORM_data2]
  · intro u r en v r' h
    simp [readAttrInt16, h, DW_FORM_sdata, DW_FORM_data1, DW_FORM_data2]

/-- Witness for C9's amended theorem: data1 byte 0xFF is 255 as a u16 and -1
as an i16; udata 0x83 0x01 (= 131) fits and comes back unchanged modulo
2^16. -/
theorem c9_width_widening_narrowing_amended_witness :
    readAttrUint16 ⟨DW_UT_compile, .format32, 8, 4, 0, 0, 0, 0⟩ ⟨[0xFF], 0⟩
        DW_FORM_data1 .little = .ok (0xFF, ⟨[0xFF], 1⟩) ∧
    readAttrInt16 ⟨DW_UT_compile, .format32, 8, 4, 0, 0, 0, 0⟩ ⟨[0xFF], 0⟩
        DW_FORM_data1 .little = .ok (toSigned 8 0xFF, ⟨[0xFF], 1⟩) ∧
    readAttrUint16 ⟨DW_UT_compile, .format32, 8, 4, 0, 0, 0, 0⟩ ⟨[0x83, 0x01], 0⟩
        DW_FORM_udata .little = .ok (131 % U16MOD, ⟨[0x83, 0x01], 2⟩) := by
  refine ⟨?_, ?_, ?_⟩
  · exact c9_width_widening_narrowing_amended.1 _ _ _ 0xFF _ (by decide)
  · exact c9_width_widening_narrowing_amended.2.1 _ _ _ 0xFF _ (by decide)
  · exact c9_width_widening_narrowing_amended.2.2.2.2.1 _ _ _ 131 _ (by decide)

/-! ## DWARF expression decoder (dwexpr.go)

DW_OP_* constants: modelled from the spec (the constants file is not among
the sources); the values are the standard DWARF opcode numbers. -/

def DW_OP_addr : Nat := 0x03
def DW_OP_deref : Nat := 0x06
def DW_OP_const1u : Nat := 0x08
def DW_OP_const1s : Nat := 0x09
def DW_OP_const2u : Nat := 0x0a
def DW_OP_const2s : Nat := 0x0b
def DW_OP_const4u : Nat := 0x0c
def DW_OP_const4s : Nat := 0x0d
def DW_OP_const8u : Nat := 0x0e
def DW_OP_const8s : Nat := 0x0f
def DW_OP_constu : Nat := 0x10
def DW_OP_consts : Nat := 0x11
def DW_OP_dup : Nat := 0x12
def DW_OP_drop : Nat := 0x13
def DW_OP_over : Nat := 0x14
def DW_OP_pick : Nat := 0x15
def DW_OP_swap : Nat := 0x16
def DW_OP_rot : Nat := 0x17
def DW_OP_xderef : Nat := 0x18
def DW_OP_abs : Nat := 0x19
def DW_OP_and : Nat := 0x1a
def DW_OP_div : Nat := 0x1b
def DW_OP_minus : Nat := 0x1c
def DW_OP_mod : Nat := 0x1d
def DW_OP_mul : Nat := 0x1e
def DW_OP_neg : Nat := 0x1f
def DW_OP_not : Nat := 0x20
def DW_OP_or : Nat := 0x21
def DW_OP_plus : Nat := 0x22
def DW_OP_plus_uconst : Nat := 0x23
def DW_OP_shl : Nat := 0x24
def DW_OP_shr : Nat := 0x25
def DW_OP_shra : Nat := 0x26
def DW_OP_xor : Nat := 0x27
def DW_OP_bra : Nat := 0x28
def DW_OP_eq : Nat := 0x29
def DW_OP_ge : Nat := 0x2a
def DW_OP_gt : Nat := 0x2b
def DW_OP_le : Nat := 0x2c
def DW_OP_lt : Nat := 0x2d
def DW_OP_ne : Nat := 0x2e
def DW_OP_skip : Nat := 0x2f
def DW_OP_lit0 : Nat := 0x30
def DW_OP_lit31 : Nat := 0x4f
def DW_OP_reg0 : Nat := 0x50
def DW_OP_reg31 : Nat := 0x6f
def DW_OP_breg0 : Nat := 0x70
def DW_OP_breg31 : Nat := 0x8f
def DW_OP_regx : Nat := 0x90
def DW_OP_fbreg : Nat := 0x91
def DW_OP_bregx : Nat := 0x92
def DW_OP_piece : Nat := 0x93
def DW_OP_deref_size : Nat := 0x94
def DW_OP_xderef_size : Nat := 0x95
def DW_OP_nop : Nat := 0x96
def DW_OP_push_object_address : Nat := 0x97
def DW_OP_call2 : Nat := 0x98
def DW_OP_call4 : Nat := 0x99
def DW_OP_call_ref : Nat := 0x9a
def DW_OP_form_tls_address : Nat := 0x9b
def DW_OP_call_frame_cfa : Nat := 0x9c
def DW_OP_bit_piece : Nat := 0x9d
def DW_OP_implicit_value : Nat := 0x9e
def DW_OP_stack_value : Nat := 0x9f
def DW_OP_implicit_pointer : Nat := 0xa0
def DW_OP_addrx : Nat := 0xa1
def DW_OP_constx : Nat := 0xa2
def DW_OP_entry_value : Nat := 0xa3
def DW_OP_const_type : Nat := 0xa4
def DW_OP_regval_type : Nat := 0xa5
def DW_OP_deref_type : Nat := 0xa6
def DW_OP_xderef_type : Nat := 0xa7
def DW_OP_convert : Nat := 0xa8
def DW_OP_reinterpret : Nat := 0xa9
def DW_OP_GNU_push_tls_address : Nat := 0xe0
def DW_OP_GNU_uninit : Nat := 0xf0
def DW_OP_GNU_encoded_addr : Nat := 0xf1
def DW_OP_GNU_implicit_pointer : Nat := 0xf2
def DW_OP_GNU_entry_value : Nat := 0xf3
def DW_OP_GNU_const_type : Nat := 0xf4
def DW_OP_GNU_regval_type : Nat := 0xf5
def DW_OP_GNU_deref_type : Nat := 0xf6
def DW_OP_GNU_convert : Nat := 0xf7
def DW_OP_GNU_reinterpret : Nat := 0xf9
def DW_OP_GNU_parameter_ref : Nat := 0xfa

/-- An operand value of a DWARF-expression operation (the Go code stores
dynamically typed uint8/int8/.../uint64/int64 values or raw byte blocks). -/
inductive OpVal : Type where
  | u8 (n : Nat) : OpVal
  | i8 (z : Int) : OpVal
  | u16 (n : Nat) : OpVal
  | i16 (z : Int) : OpVal
  | u32 (n : Nat) : OpVal
  | i32 (z : Int) : OpVal
  | u64 (n : Nat) : OpVal
  | i64 (z : Int) : OpVal
  | bytes (bs : List Nat) : OpVal
deriving DecidableEq, Repr

/-- garf.DwOperation. -/
structure DwOperation : Type where
  Op : Nat
  Operands : List OpVal
deriving DecidableEq, Repr

/-- garf.DwExpr. -/
abbrev DwExpr : Type := List DwOperation

/-- Go's bytes.Reader.Read into a fresh `n`-byte buffer: EOF when the
position is at or past the end, else fill with what remains (unwritten
buffer bytes stay zero) and advance by the number of bytes actually read. -/
def Reader.goRead (r : Reader) (n : Nat) : Option (List Nat × Reader) :=
  if r.data.length ≤ r.pos then
    none
  else
    let taken := (r.data.drop r.pos).take n
    some (taken ++ List.replicate (n - taken.length) 0,
      r.advance (min n (r.data.length - r.pos)))

/-- The per-opcode operand reads of DwData.readDwExpr's switch. -/
def readDwOperands (d : DwData) (u : DwUnit) (r : Reader) (en : Endian) (op : Nat) :
    GoOut (List OpVal × Reader) :=
  if op == DW_OP_addr then
    if d.addressSize == 4 then
      match r.readUint en 4 with
      | none => .err (.wrap "Error reading operand 0 in DWARF expression." .eof)
      | some (addr, r') => .ok ([.u64 addr], r')
    else if d.addressSize == 8 then
      match r.readUint en 8 with
      | none => .err (.wrap "Error reading operand 0 in DWARF expression." .eof)
      | some (addr, r') => .ok ([.u64 addr], r')
    else
      .err (.msg "Unknown target address size to read DW_OP_addr operand.")
  else if op == DW_OP_deref then .ok ([], r)
  else if op == DW_OP_const1u then
    match r.readUint en 1 with
    | none => .err (.wrap "Error reading operand 0 in DWARF expression." .eof)
    | some (c, r') => .ok ([.u8 c], r')
  else if op == DW_OP_const1s then
    match r.readUint en 1 with
    | none => .err (.wrap "Error reading operand 0 in DWARF expression." .eof)
    | some (c, r') => .ok ([.i8 (toSigned 8 c)], r')
  else if op == DW_OP_const2u then
    match r.readUint en 2 with
    | none => .err (.wrap "Error reading operand 0 in DWARF expression." .eof)
    | some (c, r') => .ok ([.u16 c], r')
  else if op == DW_OP_const2s then
    match r.readUint en 2 with
    | none => .err (.wrap "Error reading operand 0 in DWARF expression." .eof)
    | some (c, r') => .ok ([.i16 (toSigned 16 c)], r')
  else if op == DW_OP_const4u then
    match r.readUint en 4 with
    | none => .err (.wrap "Error reading operand 0 in DWARF expression." .eof)
    | some (c, r') => .ok ([.u32 c], r')
  else if op == DW_OP_const4s then
    match r.readUint en 4 with
    | none => .err (.wrap "Error reading operand 0 in DWARF expression." .eof)
    | some (c, r') => .ok ([.i32 (toSigned 32 c)], r')
  else if op == DW_OP_const8u then
    match r.readUint en 8 with
    | none => .err (.wrap "Error reading operand 0 in DWARF expression." .eof)
    | some (c, r') => .ok ([.u64 c], r')
  else if op == DW_OP_const8s then
    match r.readUint en 8 with
    | none => .err (.wrap "Error reading operand 0 in DWARF expression." .eof)
    | some (c, r') => .ok ([.i64 (toSigned 64 c)], r')
  else if op == DW_OP_constu then
    match ReadUnsigned r with
    | none => .err (.wrap "Error reading operand 0 in DWARF expression." .eof)
    | some (c, r') => .ok ([.u64 c], r')
  else if op == DW_OP_consts then
    match ReadSigned r with
    | none => .err (.wrap "Error reading operand 0 in DWARF expression." .eof)
    | some (c, r') => .ok ([.i64 (toSigned 64 c)], r')
  else if op == DW_OP_dup || op == DW_OP_drop || op == DW_OP_over then .ok ([], r)
  else if op == DW_OP_pick then
    match r.readByte with
    | none => .err (.wrap "Error reading operand 0 in DWARF expression." .eof)
    | some (p, r') => .ok ([.u8 p], r')
  else if op == DW_OP_swap || op == DW_OP_rot || op == DW_OP_xderef || op == DW_OP_abs
      || op == DW_OP_and || op == DW_OP_div || op == DW_OP_minus || op == DW_OP_mod
      || op == DW_OP_mul || op == DW_OP_neg || op == DW_OP_not || op == DW_OP_or
      || op == DW_OP_plus then .ok ([], r)
  else if op == DW_OP_plus_uconst then
    match ReadUnsigned r with
    | none => .err (.wrap "Error reading operand 0 in DWARF expression." .eof)
    | some (c, r') => .ok ([.u64 c], r')
  else if op == DW_OP_shl || op == DW_OP_shr || op == DW_OP_shra || op == DW_OP_xor then
    .ok ([], r)
  else if op == DW_OP_bra then
    match r.readUint en 2 with
    | none => .err (.wrap "Error reading operand 0 in DWARF expression." .eof)
    | some (c, r') => .ok ([.i16 (toSigned 16 c)], r')
  else if op == DW_OP_eq || op == DW_OP_ge || op == DW_OP_gt || op == DW_OP_le
      || op == DW_OP_lt || op == DW_OP_ne then .ok ([], r)
  else if op == DW_OP_skip then
    match r.readUint en 2 with
    | none => .err (.wrap "Error reading operand 0 in DWARF expression." .eof)
    | some (c, r') => .ok ([.i16 (toSigned 16 c)], r')
  else if DW_OP_lit0 ≤ op && op ≤ DW_OP_lit31 then .ok ([], r)
  else if DW_OP_reg0 ≤ op && op ≤ DW_OP_reg31 then .ok ([], r)
  else if DW_OP_breg0 ≤ op && op ≤ DW_OP_breg31 then
    match ReadSigned r with
    | none => .err (.wrap "Error reading operand 0 in DWARF expression." .eof)
    | some (c, r') => .ok ([.i64 (toSigned 64 c)], r')
  else if op == DW_OP_regx then
    match ReadUnsigned r with
    | none => .err (.wrap "Error reading operand 0 in DWARF expression." .eof)
    | some (c, r') => .ok ([.u64 c], r')
  else if op == DW_OP_fbreg then
    match ReadSigned r with
    | none => .err (.wrap "Error reading operand 0 in DWARF expression." .eof)
    | some (c, r') => .ok ([.i64 (toSigned 64 c)], r')
  else if op == DW_OP_bregx then
    match ReadUnsigned r with
    | none => .err (.wrap "Error reading operand 0 in DWARF expression." .eof)
    | some (reg, r1) =>
      match ReadSigned r1 with
      | none => .err (.wrap "Error reading operand 1 in DWARF expression." .eof)
      | some (offset, r2) => .ok ([.u64 reg, .i64 (toSigned 64 offset)], r2)
  else if op == DW_OP_piece then
    match ReadUnsigned r with
    | none => .err (.wrap "Error reading operand 0 in DWARF expression." .eof)
    | some (c, r') => .ok ([.u64 c], r')
  else if op == DW_OP_deref_size || op == DW_OP_xderef_size then
    match r.readByte with
    | none => .err (.wrap "Error reading operand 0 in DWARF expression." .eof)
    | some (s, r') => .ok ([.u8 s], r')
  else if op == DW_OP_nop || op == DW_OP_push_object_address then .ok ([], r)
  else if op == DW_OP_call2 then
    match r.readUint en 2 with
    | none => .err (.wrap "Error reading operand 0 in DWARF expression." .eof)
    | some (c, r') => .ok ([.u16 c], r')
  else if op == DW_OP_call4 then
    match r.readUint en 4 with
    | none => .err (.wrap "Error reading operand 0 in DWARF expression." .eof)
    | some (c, r') => .ok ([.u32 c], r')
  else if op == DW_OP_call_ref then
    match u.Format with
    | .format32 =>
      match r.readUint en 4 with
      | none => .err (.wrap "Error reading operand 0 in DWARF expression." .eof)
      | some (c, r') => .ok ([.u32 c], r')
    | .format64 =>
      match r.readUint en 8 with
      | none => .err (.wrap "Error reading operand 0 in DWARF expression." .eof)
      | some (c, r') => .ok ([.u64 c], r')
  else if op == DW_OP_form_tls_address || op == DW_OP_call_frame_cfa then .ok ([], r)
  else if op == DW_OP_bit_piece then
    match ReadUnsigned r with
    | none => .err (.wrap "Error reading operand 0 in DWARF expression." .eof)
    | some (reg, r1) =>
      match ReadUnsigned r1 with
      | none => .err (.wrap "Error reading operand 1 in DWARF expression." .eof)
      | some (offset, r2) => .ok ([.u64 reg, .u64 offset], r2)
  else if op == DW_OP_implicit_value then
    match ReadUnsigned r with
    | none => .err (.wrap "Error reading operand 0 in DWARF expression." .eof)
    | some (sz, r1) =>
      match r1.goRead sz with
      | none => .err (.wrap "Error reading operand 1 in DWARF expression." .eof)
      | some (value, r2) => .ok ([.u64 sz, .bytes value], r2)
  else if op == DW_OP_stack_value then .ok ([], r)
  else if op == DW_OP_implicit_pointer || op == DW_OP_GNU_implicit_pointer then
    match
      (match u.Format with
       | .format32 =>
         match r.readUint en 4 with
         | none => none
         | some (c, r') => some (c, r')
       | .format64 => r.readUint en 8) with
    | none => .err (.wrap "Error reading operand 0 in DWARF expression." .eof)
    | some (offset, r1) =>
      match ReadUnsigned r1 with
      | none => .err (.wrap "Error reading operand 1 in DWARF expression." .eof)
      | some (constant, r2) => .ok ([.u64 offset, .u64 constant], r2)
  else if op == DW_OP_addrx || op == DW_OP_constx then
    match ReadUnsigned r with
    | none => .err (.wrap "Error reading operand 0 in DWARF expression." .eof)
    | some (c, r') => .ok ([.u64 c], r')
  else if op == DW_OP_entry_value || op == DW_OP_GNU_entry_value then
    match ReadUnsigned r with
    | none => .err (.wrap "Error reading operand 0 in DWARF expression." .eof)
    | some (sz, r1) =>
      match r1.goRead sz with
      | none => .err (.wrap "Error reading operand 1 in DWARF expression." .eof)
      | some (value, r2) => .ok ([.u64 sz, .bytes value], r2)
  else if op == DW_OP_const_type || op == DW_OP_GNU_const_type then
    .err (.msg "Unsupport opcode in DWARF expr.")
  else if op == DW_OP_regval_type || op == DW_OP_GNU_regval_type then
    match ReadUnsigned r with
    | none => .err (.wrap "Error reading operand 0 in DWARF expression." .eof)
    | some (reg, r1) =>
      match ReadUnsigned r1 with
      | none => .err (.wrap "Error reading operand 1 in DWARF expression." .eof)
      | some (offset, r2) => .ok ([.u64 reg, .u64 offset], r2)
  else if op == DW_OP_deref_type || op == DW_OP_GNU_deref_type
      || op == DW_OP_xderef_type then
    match r.readByte with
    | none => .err (.wrap "Error reading operand 0 in DWARF expression." .eof)
    | some (sz, r1) =>
      match ReadUnsigned r1 with
      | none => .err (.wrap "Error reading operand 1 in DWARF expression." .eof)
      | some (offset, r2) => .ok ([.u8 sz, .u64 offset], r2)
  else if op == DW_OP_convert || op == DW_OP_GNU_convert
      || op == DW_OP_reinterpret || op == DW_OP_GNU_reinterpret then
    match ReadUnsigned r with
    | none => .err (.wrap "Error reading operand 0 in DWARF expression." .eof)
    | some (c, r') => .ok ([.u64 c], r')
  else if op == DW_OP_GNU_push_tls_address || op == DW_OP_GNU_uninit
      || op == DW_OP_GNU_encoded_addr || op == DW_OP_GNU_parameter_ref then
    .err (.msg "Unsupport opcode in DWARF expr.")
  else
    .err (.msg "Unknown opcode while reading DWARF expression.")

/-- The loop of DwData.readDwExpr: read operations while the bytes consumed
since entry (rem - r.Len()) are below the declared length. -/
def readDwExprLoop (d : DwData) (u : DwUnit) (en : Endian) (l : Nat) (rem : Nat) :
    Nat → Reader → DwExpr → GoOut (DwExpr × Reader)
  | 0, _, _ => .noFuel
  | fuel + 1, r, expr =>
    if rem - r.len < l then
      match r.readByte with
      | none => .err (.wrap "Error reading opcode of operation in exprloc data." .eof)
      | some (b, r1) =>
        match readDwOperands d u r1 en b with
        | .noFuel => .noFuel
        | .goPanic => .goPanic
        | .err e => .err e
        | .ok (operands, r2) =>
          readDwExprLoop d u en l rem fuel r2 (expr ++ [⟨b, operands⟩])
    else
      .ok (expr, r)

/-- DwData.readDwExpr. -/
def readDwExpr (d : DwData) (u : DwUnit) (r : Reader) (en : Endian) (l : Nat)
    (fuel : Nat) : GoOut (DwExpr × Reader) :=
  readDwExprLoop d u en l r.len fuel r []

/-- DwData.readSizeAndDwExpr: LEB128 length prefix, then the expression. -/
def readSizeAndDwExpr (d : DwData) (u : DwUnit) (r : Reader) (en : Endian)
    (fuel : Nat) : GoOut (DwExpr × Reader) :=
  match ReadUnsigned r with
  | none => .err (.wrap "Error reading length of exprloc data." .eof)
  | some (l, r1) => readDwExpr d u r1 en l fuel

/-! ## Location lists (loclist.go) and range lists (rangelist.go) -/

/-- math.MaxUint32. -/
def MaxUint32 : Nat := 0xffffffff

/-- math.MaxUint64. -/
def MaxUint64 : Nat := U64MOD - 1

/-- garf.LocListEntry (the Go interface with its four implementations). -/
inductive LocListEntry : Type where
  | normal (Begin End : Nat) (Loc : DwExpr) : LocListEntry
  | defaultEntry (e : DwExpr) : LocListEntry
  | baseAddrSelection (a : Nat) : LocListEntry
  | endOfList : LocListEntry
deriving DecidableEq, Repr

/-- garf.LocList. -/
abbrev LocList : Type := List LocListEntry

/-- garf.RangeListEntry (interface with three implementations). -/
inductive RangeListEntry : Type where
  | normal (Begin End : Nat) : RangeListEntry
  | baseAddrSelection (a : Nat) : RangeListEntry
  | endOfList : RangeListEntry
deriving DecidableEq, Repr

/-- garf.RangeList. -/
abbrev RangeList : Type := List RangeListEntry

/-- The entry loop of DwData.readLocList.  Note the 4-byte branch of the
source: when end32 is not MaxUint32, the source assigns
`end = uint64(begin32)` (copying the first word), not uint64(end32). -/
def readLocListLoop (d : DwData) (u : DwUnit) (en : Endian) :
    Nat → Reader → LocList → GoOut LocList
  | 0, _, _ => .noFuel
  | fuel + 1, r, locList =>
    let words : GoOut (Nat × Nat × Reader) :=
      if d.addressSize == 4 then
        match r.readUint en 4 with
        | none => .err .eof
        | some (begin32, r1) =>
          let beginAddr := if begin32 == MaxUint32 then MaxUint64 else begin32
          match r1.readUint en 4 with
          | none => .err .eof
          | some (end32, r2) =>
            let endAddr := if end32 == MaxUint32 then MaxUint64 else begin32
            .ok (beginAddr, endAddr, r2)
      else
        match r.readUint en 8 with
        | none => .err .eof
        | some (beginAddr, r1) =>
          match r1.readUint en 8 with
          | none => .err .eof
          | some (endAddr, r2) => .ok (beginAddr, endAddr, r2)
    match words with
    | .noFuel => .noFuel
    | .goPanic => .goPanic
    | .err e => .err e
    | .ok (beginAddr, endAddr, r2) =>
      if beginAddr == 0 && endAddr == 0 then
        .ok (locList ++ [.endOfList])
      else if beginAddr == MaxUint64 then
        readLocListLoop d u en fuel r2 (locList ++ [.baseAddrSelection endAddr])
      else if beginAddr == 0 && endAddr == MaxUint64 then
        match readSizeAndDwExpr d u r2 en fuel with
        | .noFuel => .noFuel
        | .goPanic => .goPanic
        | .err e => .err (.wrap "Error reading DWARF expr from default loc list entry." e)
        | .ok (expr, r3) =>
          readLocListLoop d u en fuel r3 (locList ++ [.defaultEntry expr])
      else
        match r2.readUint en 2 with
        | none => .err (.wrap "Error reading size of normal loc list entry." .eof)
        | some (size, r3) =>
          match readDwExpr d u r3 en size fuel with
          | .noFuel => .noFuel
          | .goPanic => .goPanic
          | .err e => .err (.wrap "Error reading DWARF expr from normal loc list entry." e)
          | .ok (expr, r4) =>
            readLocListLoop d u en fuel r4 (locList ++ [.normal beginAddr endAddr expr])

/-- DwData.readLocList. -/
def readLocList (d : DwData) (u : DwUnit) (offset : Nat) (en : Endian)
    (fuel : Nat) : GoOut LocList :=
  match d.debug_loc with
  | none => .err (.msg ".debug_loc section missing in ELF data.")
  | some sections =>
    match sections.head? with
    | none => .goPanic
    | some sect => readLocListLoop d u en fuel ((Reader.mk sect 0).seek offset) []

/-- The entry loop of DwData.readRangeList.  The 4-byte branch carries the
same `end = uint64(begin32)` assignment as readLocList. -/
def readRangeListLoop (d : DwData) (u : DwUnit) (en : Endian) :
    Nat → Reader → RangeList → GoOut RangeList
  | 0, _, _ => .noFuel
  | fuel + 1, r, rangeList =>
    let words : GoOut (Nat × Nat × Reader) :=
      if d.addressSize == 4 then
        match r.readUint en 4 with
        | none => .err .eof
        | some (begin32, r1) =>
          let beginAddr := if begin32 == MaxUint32 then MaxUint64 else begin32
          match r1.readUint en 4 with
          | none => .err .eof
          | some (end32, r2) =>
            let endAddr := if end32 == MaxUint32 then MaxUint64 else begin32
            .ok (beginAddr, endAddr, r2)
      else
        match r.readUint en 8 with
        | none => .err .eof
        | some (beginAddr, r1) =>
          match r1.readUint en 8 with
          | none => .err .eof
          | some (endAddr, r2) => .ok (beginAddr, endAddr, r2)
    match words with
    | .noFuel => .noFuel
    | .goPanic => .goPanic
    | .err e => .err e
    | .ok (beginAddr, endAddr, r2) =>
      if beginAddr == 0 && endAddr == 0 then
        .ok (rangeList ++ [.endOfList])
      else if beginAddr == MaxUint64 then
        readRangeListLoop d u en fuel r2 (rangeList ++ [.baseAddrSelection endAddr])
      else
        readRangeListLoop d u en fuel r2 (rangeList ++ [.normal beginAddr endAddr])

/-- DwData.readRangeList. -/
def readRangeList (d : DwData) (u : DwUnit) (offset : Nat) (en : Endian)
    (fuel : Nat) : GoOut RangeList :=
  match d.debug_ranges with
  | none => .err (.msg ".debug_ranges section missing in ELF data.")
  | some sections =>
    match sections.head? with
    | none => .goPanic
    | some sect => readRangeListLoop d u en fuel ((Reader.mk sect 0).seek offset) []

/-- C1: with a 4-byte address size, an entry whose two words are
(begin32 = 1, end32 = 2) decodes to End = 1 in both the range-list and the
location-list reader: the source copies begin32 into `end` whenever end32 is
not MaxUint32, instead of widening end32 (which the spec prescribes, so the
decoded End here should have been 2). -/
theorem c1_end_word_copies_begin32 :
    readRangeList
        ⟨none, none, none, some [[1, 0, 0, 0, 2, 0, 0, 0, 0, 0, 0, 0, 0, 0, 0, 0]],
         some [[1, 0, 0, 0, 2, 0, 0, 0, 0, 0, 0, 0, 0, 0, 0, 0]], 4, .little⟩
        ⟨DW_UT_compile, .format32, 4, 4, 0, 0, 0, 0⟩ 0 .little 4
      = .ok [.normal 1 1, .endOfList] ∧
    readLocList
        ⟨none, none, none, some [[1, 0, 0, 0, 2, 0, 0, 0, 0, 0, 0, 0, 0, 0, 0, 0, 0, 0]],
         none, 4, .little⟩
        ⟨DW_UT_compile, .format32, 4, 4, 0, 0, 0, 0⟩ 0 .little 4
      = .ok [.normal 1 1 [], .endOfList] := by
  constructor
  · decide
  · decide

/-! ## Strings (utils.ReadCString, garf DebugStrTbl, readAttrStr) -/

/-- utils.ReadUntil: read up to, not including, the delimiter. -/
def ReadUntilLoop (delim : Nat) : List Nat → Option (List Nat × Nat)
  | [] => none
  | c :: cs =>
    if c == delim then
      some ([], 1)
    else
      match ReadUntilLoop delim cs with
      | none => none
      | some (str, k) => some (c :: str, k + 1)

/-- utils.ReadCString: a null-terminated byte string (returned as its
bytes). -/
def ReadCString (r : Reader) : Option (List Nat × Reader) :=
  match ReadUntilLoop 0 r.rest with
  | none => none
  | some (str, k) => some (str, r.advance k)

/-- DebugStrTbl.ReadStr: bounds-check the offset, then read the
null-terminated string there. -/
def DebugStrTbl.ReadStr (data : List Nat) (offset : Nat) : GoOut (List Nat) :=
  if data.length ≤ offset then
    .err (.msg "Invalid .debug_str offset.")
  else
    match ReadCString ((Reader.mk data 0).seek offset) with
    | none => .err .eof
    | some (str, _) => .ok str

/-- DwData.DebugStr: resolve the .debug_str section (memoisation is
semantically transparent and not modelled). -/
def DwData.DebugStr (d : DwData) : GoOut (List Nat) :=
  match d.debug_str with
  | none => .err (.msg ".debug_str section is not present.")
  | some sections =>
    if sections.length > 1 then
      .err (.msg "More than one .debug_str sections.")
    else
      match sections.head? with
      | none => .goPanic
      | some sect => .ok sect

/-- DwData.readAttrStr. -/
def readAttrStr (d : DwData) (u : DwUnit) (r : Reader) (form : DwForm) (en : Endian) :
    GoOut (List Nat × Reader) :=
  if form == DW_FORM_string then
    match ReadCString r with
    | none => .err (.wrap "Error reading inline string attribute value." .eof)
    | some (str, r') => .ok (str, r')
  else if form == DW_FORM_strp then
    let offRes : GoOut (Nat × Reader) :=
      match u.Format with
      | .format32 =>
        match r.readUint en 4 with
        | none => .err (.wrap "Error reading .debug_str 32-bit offset." .eof)
        | some (o, r') => .ok (o, r')
      | .format64 =>
        match r.readUint en 8 with
        | none => .err (.wrap "Error reading .debug_str 64-bit offset." .eof)
        | some (o, r') => .ok (o, r')
    match offRes with
    | .noFuel => .noFuel
    | .goPanic => .goPanic
    | .err e => .err e
    | .ok (offset, r') =>
      match d.DebugStr with
      | .noFuel => .noFuel
      | .goPanic => .goPanic
      | .err e => .err (.wrap "Error reading .debug_str." e)
      | .ok data =>
        match DebugStrTbl.ReadStr data offset with
        | .noFuel => .noFuel
        | .goPanic => .goPanic
        | .err e => .err (.wrap "Error reading string." e)
        | .ok str => .ok (str, r')
  else
    .err (.msg "Cannot read data of form as string data.")

/-- DwData.readAttrByteSlice: size prefix per block form, then that many
bytes via bytes.Reader.Read (short reads zero-fill, as in Go). -/
def readAttrByteSlice (d : DwData) (u : DwUnit) (r : Reader) (f : DwForm) (en : Endian) :
    GoOut (List Nat × Reader) :=
  let sizeRes : GoOut (Nat × Reader) :=
    if f == DW_FORM_block1 then
      match r.readByte with
      | none => .err (.wrap "Error reading block size of form data." .eof)
      | some (i, r') => .ok (i, r')
    else if f == DW_FORM_block2 then
      match r.readUint en 2 with
      | none => .err (.wrap "Error reading block size of form data." .eof)
      | some (i, r') => .ok (i, r')
    else if f == DW_FORM_block4 then
      match r.readUint en 4 with
      | none => .err (.wrap "Error reading block size of form data." .eof)
      | some (i, r') => .ok (i, r')
    else if f == DW_FORM_exprloc || f == DW_FORM_block then
      match ReadUnsigned r with
      | none => .err (.wrap "Error reading block size of form data." .eof)
      | some (sz, r') => .ok (sz, r')
    else
      .err (.msg "Cannot read form data a block of bytes.")
  match sizeRes with
  | .noFuel => .noFuel
  | .goPanic => .goPanic
  | .err e => .err e
  | .ok (size, r') =>
    match r'.goRead size with
    | none => .err (.wrap "Error reading block of data for form." .eof)
    | some (b, r'') => .ok (b, r'')

/-! ## DWARF attribute-name constants

Modelled from the spec: the Go file defining the DW_AT_* constants is not
among the sources; the values are the standard DWARF attribute codes. -/

def DW_AT_sibling : Nat := 0x01
def DW_AT_location : Nat := 0x02
def DW_AT_name : Nat := 0x03
def DW_AT_ordering : Nat := 0x09
def DW_AT_byte_size : Nat := 0x0b
def DW_AT_bit_offset : Nat := 0x0c
def DW_AT_bit_size : Nat := 0x0d
def DW_AT_stmt_list : Nat := 0x10
def DW_AT_low_pc : Nat := 0x11
def DW_AT_high_pc : Nat := 0x12
def DW_AT_language : Nat := 0x13
def DW_AT_visibility : Nat := 0x17
def DW_AT_import : Nat := 0x18
def DW_AT_string_length : Nat := 0x19
def DW_AT_common_reference : Nat := 0x1a
def DW_AT_comp_dir : Nat := 0x1b
def DW_AT_const_value : Nat := 0x1c
def DW_AT_containing_type : Nat := 0x1d
def DW_AT_default_value : Nat := 0x1e
def DW_AT_inline : Nat := 0x20
def DW_AT_is_optional : Nat := 0x21
def DW_AT_lower_bound : Nat := 0x22
def DW_AT_producer : Nat := 0x25
def DW_AT_prototyped : Nat := 0x27
def DW_AT_return_addr : Nat := 0x2a
def DW_AT_start_scope : Nat := 0x2c
def DW_AT_bit_stride : Nat := 0x2e
def DW_AT_upper_bound : Nat := 0x2f
def DW_AT_abstract_origin : Nat := 0x31
def DW_AT_accessibility : Nat := 0x32
def DW_AT_address_class : Nat := 0x33
def DW_AT_artificial : Nat := 0x34
def DW_AT_base_types : Nat := 0x35
def DW_AT_data_member_location : Nat := 0x38
def DW_AT_decl_file : Nat := 0x3a
def DW_AT_decl_line : Nat := 0x3b
def DW_AT_declaration : Nat := 0x3c
def DW_AT_encoding : Nat := 0x3e
def DW_AT_external : Nat := 0x3f
def DW_AT_frame_base : Nat := 0x40
def DW_AT_friend : Nat := 0x41
def DW_AT_namelist_item : Nat := 0x44
def DW_AT_priority : Nat := 0x45
def DW_AT_segment : Nat := 0x46
def DW_AT_specification : Nat := 0x47
def DW_AT_static_link : Nat := 0x48
def DW_AT_type : Nat := 0x49
def DW_AT_variable_parameter : Nat := 0x4b
def DW_AT_virtuality : Nat := 0x4c
def DW_AT_vtable_elem_location : Nat := 0x4d
def DW_AT_ranges : Nat := 0x55
def DW_AT_picture_string : Nat := 0x60
def DW_AT_mutable : Nat := 0x61
def DW_AT_threads_scaled : Nat := 0x62
def DW_AT_explicit : Nat := 0x63
def DW_AT_object_pointer : Nat := 0x64
def DW_AT_endianity : Nat := 0x65
def DW_AT_elemental : Nat := 0x66
def DW_AT_pure : Nat := 0x67
def DW_AT_recursive : Nat := 0x68
def DW_AT_signature : Nat := 0x69
def DW_AT_main_subprogram : Nat := 0x6a
def DW_AT_const_expr : Nat := 0x6c
def DW_AT_enum_class : Nat := 0x6d
def DW_AT_linkage_name : Nat := 0x6e
def DW_AT_GNU_call_site_value : Nat := 0x2111
def DW_AT_GNU_tail_call : Nat := 0x2115
def DW_AT_GNU_all_tail_call_sites : Nat := 0x2116
def DW_AT_GNU_all_call_sites : Nat := 0x2117

/-! ## DIE tree decoding (garf.go readDIETree/readDIETreeHelper, dwattr.go
readAttr/readAttrRef)

DIE nodes are heap objects in Go; here they live in an explicit store
(`dies`, indexed by allocation order), and the container's offset-to-DIE
cache `dieMap` maps .debug_info offsets to store indices.  The per-unit
abbreviation-table memo (u.abbrevTable) is part of the same state. -/

/-- An attribute value (Go interface value on garf.Attribute.Value). -/
inductive AttrValue : Type where
  | u8 (n : Nat) : AttrValue
  | u16 (n : Nat) : AttrValue
  | u32 (n : Nat) : AttrValue
  | u64 (n : Nat) : AttrValue
  | i64 (z : Int) : AttrValue
  | str (s : List Nat) : AttrValue
  | flag (b : Bool) : AttrValue
  | die (i : Option Nat) : AttrValue
  | expr (e : DwExpr) : AttrValue
  | loclist (l : LocList) : AttrValue
  | rangelist (l : RangeList) : AttrValue
  | block (bs : List Nat) : AttrValue
  | order (n : Nat) : AttrValue
  | vis (n : Nat) : AttrValue
  | inl (n : Nat) : AttrValue
  | access (n : Nat) : AttrValue
  | lang (n : Nat) : AttrValue
  | ate (n : Nat) : AttrValue
  | virt (n : Nat) : AttrValue
  | endianity (n : Nat) : AttrValue
deriving DecidableEq, Repr

/-- garf.DIE, with parent/children as store indices. -/
structure DIERec : Type where
  Tag : Nat
  Parent : Option Nat
  Children : List Nat
  startOffset : Nat
  endOffset : Nat
  Attributes : List (Nat × AttrValue)
deriving DecidableEq, Repr

/-- The decoder's mutable state: the offset-to-DIE cache, the DIE store, and
the unit's abbreviation-table memo. -/
structure DwState : Type where
  dieMap : Nat → Option Nat
  dies : List DIERec
  abbrevTable : Option AbbrevTable

/-- Update the DIE with the given store index in place. -/
def DwState.updateDie (st : DwState) (i : Nat) (f : DIERec → DIERec) : DwState :=
  { st with dies :=
      match st.dies.get? i with
      | none => st.dies
      | some dRec => st.dies.set i (f dRec) }

/-- Allocate a fresh DIE record and register it in the offset-to-DIE cache
(`d.dieMap[offset] = die`, done before the attributes are read). -/
def installDie (st : DwState) (offset : Nat) (tag : Nat) (parent : Option Nat) : DwState :=
  { st with
    dies := st.dies ++ [⟨tag, parent, [], offset, 0, []⟩]
    dieMap := fun o => if o = offset then some st.dies.length else st.dieMap o }

/-- The Go `delete(d.dieMap, offset)` performed when reading a DIE fails. -/
def deleteDie (st : DwState) (offset : Nat) : DwState :=
  { st with dieMap := fun o => if o = offset then none else st.dieMap o }

/-- The abbreviation-table memo step of readDIETreeHelper
(`if u.abbrevTable == nil { u.abbrevTable, err = d.AbbrevTable(...) }`). -/
def loadAbbrevTable (fuel : Nat) (d : DwData) (u : DwUnit) (st : DwState) :
    GoOut Eureka.AbbrevTable × DwState :=
  match st.abbrevTable with
  | some t => (.ok t, st)
  | none =>
    match d.AbbrevTable u.debugAbbrevOffset fuel with
    | .ok t => (.ok t, { st with abbrevTable := some t })
    | .err e => (.err (.wrap "Error getting abbrev table while reading a DIE tree." e), st)
    | .goPanic => (.goPanic, st)
    | .noFuel => (.noFuel, st)

/-- Go map insert `attributes[attr.Name] = attr` on the attribute map. -/
def attrInsert (m : List (Nat × AttrValue)) (k : Nat) (v : AttrValue) :
    List (Nat × AttrValue) :=
  if m.any (fun p => p.1 == k) then
    m.map (fun p => if p.1 == k then (k, v) else p)
  else
    m ++ [(k, v)]

/-- Lift a stateless attribute read into the stateful result shape. -/
def liftPure {α : Type} (st : DwState) (g : GoOut (α × Reader))
    (f : α → AttrValue) : GoOut (AttrValue × Reader) × DwState :=
  match g with
  | .ok (a, r) => (.ok (f a, r), st)
  | .err e => (.err e, st)
  | .goPanic => (.goPanic, st)
  | .noFuel => (.noFuel, st)

/-- Wrap a reference read's DIE into an attribute value. -/
def mapRefVal (p : GoOut (Option Nat × Reader) × DwState) :
    GoOut (AttrValue × Reader) × DwState :=
  match p with
  | (.ok (t, r'), st') => (.ok (.die t, r'), st')
  | (.err e, st') => (.err e, st')
  | (.goPanic, st') => (.goPanic, st')
  | (.noFuel, st') => (.noFuel, st')

/-- DwData.readAttrLocList: a section offset (via readAttrUint64), then the
list from .debug_loc. -/
def readAttrLocList (d : DwData) (u : DwUnit) (r : Reader) (form : DwForm)
    (en : Endian) (fuel : Nat) : GoOut (LocList × Reader) :=
  match readAttrUint64 u r form en with
  | .noFuel => .noFuel
  | .goPanic => .goPanic
  | .err e => .err (.wrap "Error reading .debug_loc offset." e)
  | .ok (offset, r') =>
    match readLocList d u offset en fuel with
    | .noFuel => .noFuel
    | .goPanic => .goPanic
    | .err e => .err e
    | .ok ll => .ok (ll, r')

/-- DwData.readAttrRangeList. -/
def readAttrRangeList (d : DwData) (u : DwUnit) (r : Reader) (form : DwForm)
    (en : Endian) (fuel : Nat) : GoOut (RangeList × Reader) :=
  match readAttrUint64 u r form en with
  | .noFuel => .noFuel
  | .goPanic => .goPanic
  | .err e => .err (.wrap "Error reading .debug_ranges offset." e)
  | .ok (offset, r') =>
    match readRangeList d u offset en fuel with
    | .noFuel => .noFuel
    | .goPanic => .goPanic
    | .err e => .err e
    | .ok rl => .ok (rl, r')

/-- The action one arm of readAttr's switch performs. -/
inductive AttrAct : Type where
  | actRef : AttrAct
  | actLocList : AttrAct
  | actExpr : AttrAct
  | actStr : AttrAct
  | actEnum (mk : Nat → AttrValue) : AttrAct
  | actFlag : AttrAct
  | actLang : AttrAct
  | actU32 : AttrAct
  | actU64 : AttrAct
  | actI64 : AttrAct
  | actBlock : AttrAct
  | actRangeList : AttrAct
  | actErr (m : String) : AttrAct

/-- The switch of DwData.readAttr (dwattr.go), one arm per Go case in source
order, tabulated as the action to perform. -/
def attrAction (at' : DwAt) (form : DwForm) : AttrAct :=
  if at' == DW_AT_sibling then .actRef
  else if at' == DW_AT_location then
    if form.IsLocListPtr then .actLocList
    else if form.IsExprLoc then .actExpr
    else .actErr "Unsupported form for DW_AT_Location."
  else if at' == DW_AT_name then .actStr
  else if at' == DW_AT_ordering then .actEnum .order
  else if at' == DW_AT_byte_size || at' == DW_AT_bit_offset || at' == DW_AT_bit_size then
    if form.IsConstant then .actU32
    else if form.IsExprLoc then .actExpr
    else if form.IsRef then .actRef
    else .actErr "Unsupported form for attribute."
  else if at' == DW_AT_stmt_list then
    if !form.IsLinePtr then .actErr "Unsupported form for DW_AT_stmt_list."
    else .actU64
  else if at' == DW_AT_low_pc then
    if !form.IsAddress then .actErr "Unsupported form for DW_AT_low_pc."
    else .actU64
  else if at' == DW_AT_high_pc then
    if !form.IsAddress && !form.IsConstant then .actErr "Unsupported form for DW_AT_high_pc."
    else .actU64
  else if at' == DW_AT_language then
    if !form.IsConstant then .actErr "Unsupported form for DW_AT_language."
    else .actLang
  else if at' == DW_AT_visibility then .actEnum .vis
  else if at' == DW_AT_import then .actRef
  else if at' == DW_AT_string_length then
    if form.IsExprLoc then .actExpr
    else if form.IsLocListPtr then .actLocList
    else .actErr "Unsupported form for DW_AT_string_length."
  else if at' == DW_AT_common_reference then .actRef
  else if at' == DW_AT_comp_dir then .actStr
  else if at' == DW_AT_const_value then
    if form.IsBlock then .actBlock
    else if form.IsConstant then .actI64
    else if form.IsString then .actStr
    else .actErr "Unsupported form for DW_AT_const_value."
  else if at' == DW_AT_containing_type then .actRef
  else if at' == DW_AT_default_value then .actRef
  else if at' == DW_AT_inline then .actEnum .inl
  else if at' == DW_AT_is_optional then .actFlag
  else if at' == DW_AT_lower_bound then
    if form.IsExprLoc then .actExpr
    else if form.IsConstant then .actI64
    else if form.IsRef then .actRef
    else .actErr "Unsupported form for DW_AT_lower_bound."
  else if at' == DW_AT_producer then .actStr
  else if at' == DW_AT_prototyped then .actFlag
  else if at' == DW_AT_return_addr then
    if form.IsExprLoc then .actExpr
    else if form.IsLocListPtr then .actLocList
    else .actErr "Unsupported form for DW_AT_return_addr."
  else if at' == DW_AT_start_scope then
    if form.IsRangeListPtr then .actRangeList
    else if form.IsConstant then .actI64
    else .actErr "Unsupported form for DW_AT_start_scope."
  else if at' == DW_AT_bit_stride then
    if form.IsExprLoc then .actExpr
    else if form.IsConstant then .actI64
    else if form.IsRef then .actRef
    else .actErr "Unsupported form for DW_AT_bit_stride."
  else if at' == DW_AT_upper_bound then
    if form.IsExprLoc then .actExpr
    else if form.IsConstant then .actI64
    else if form.IsRef then .actRef
    else .actErr "Unsupported form for DW_AT_upper_bound."
  else if at' == DW_AT_abstract_origin then .actRef
  else if at' == DW_AT_accessibility then .actEnum .access
  else if at' == DW_AT_address_class then .actEnum .u8
  else if at' == DW_AT_artificial then .actFlag
  else if at' == DW_AT_base_types then .actRef
  else if at' == DW_AT_data_member_location then
    if form == DW_FORM_sec_offset then .actU64
    else if form == DW_FORM_exprloc then .actBlock
    else .actI64
  else if at' == DW_AT_decl_file then .actU32
  else if at' == DW_AT_decl_line then .actU32
  else if at' == DW_AT_declaration then .actFlag
  else if at' == DW_AT_encoding then .actEnum .ate
  else if at' == DW_AT_external then .actFlag
  else if at' == DW_AT_frame_base then
    if form.IsExprLoc then .actExpr
    else if form.IsLocListPtr then .actLocList
    else .actErr "Unsupported form for DW_AT_frame_base."
  else if at' == DW_AT_friend then .actRef
  else if at' == DW_AT_namelist_item then .actRef
  else if at' == DW_AT_priority then .actRef
  else if at' == DW_AT_segment then
    if form.IsExprLoc then .actExpr
    else if form.IsLocListPtr then .actLocList
    else .actErr "Unsupported form for DW_AT_segment."
  else if at' == DW_AT_specification then .actRef
  else if at' == DW_AT_static_link then
    if form.IsExprLoc then .actExpr
    else if form.IsLocListPtr then .actLocList
    else .actErr "Unsupported form for DW_AT_static_link."
  else if at' == DW_AT_type then .actRef
  else if at' == DW_AT_variable_parameter then .actFlag
  else if at' == DW_AT_virtuality then .actEnum .virt
  else if at' == DW_AT_vtable_elem_location then
    if form.IsExprLoc then .actExpr
    else if form.IsLocListPtr then .actLocList
    else .actErr "Unsupported form for DW_AT_vtable_elem_location."
  else if at' == DW_AT_ranges then .actRangeList
  else if at' == DW_AT_picture_string then .actStr
  else if at' == DW_AT_mutable then .actFlag
  else if at' == DW_AT_threads_scaled then .actFlag
  else if at' == DW_AT_explicit then .actFlag
  else if at' == DW_AT_object_pointer then .actRef
  else if at' == DW_AT_endianity then .actEnum .endianity
  else if at' == DW_AT_elemental then .actFlag
  else if at' == DW_AT_pure then .actFlag
  else if at' == DW_AT_recursive then .actFlag
  else if at' == DW_AT_signature then .actRef
  else if at' == DW_AT_main_subprogram then .actFlag
  else if at' == DW_AT_const_expr then .actFlag
  else if at' == DW_AT_enum_class then .actFlag
  else if at' == DW_AT_linkage_name then .actStr
  else if at' == DW_AT_GNU_tail_call then .actFlag
  else if at' == DW_AT_GNU_all_tail_call_sites then .actFlag
  else if at' == DW_AT_GNU_all_call_sites then .actFlag
  else if at' == DW_AT_GNU_call_site_value then
    if form.IsExprLoc then .actExpr
    else .actErr "Unsupported form for DW_AT_GNU_call_site_value."
  else .actBlock

mutual

/-- DwData.readDIETree: fresh .debug_info reader, seek to the offset, decode
with parent = nil. -/
def readDIETreeF : Nat → DwData → DwUnit → Nat → DwState →
    GoOut (Option Nat) × DwState
  | 0, _, _, _, st => (.noFuel, st)
  | fuel + 1, d, u, offset, st =>
    match d.debug_info with
    | none => (.err (.msg ".debug_info section is not present."), st)
    | some sections =>
      if sections.length > 1 then
        (.err (.msg "More than one .debug_info sections."), st)
      else
        match sections.head? with
        | none => (.goPanic, st)
        | some sect =>
          match readDIETreeHelperF fuel d u ((Reader.mk sect 0).seek offset)
              d.endianess none st with
          | (.ok (die, _), st') => (.ok die, st')
          | (.err e, st') => (.err e, st')
          | (.goPanic, st') => (.goPanic, st')
          | (.noFuel, st') => (.noFuel, st')
termination_by structural fuel _ _ _ _ => fuel

/-- DwData.readDIETreeHelper: cache hit rewires Parent and seeks past the
node; a miss allocates the DIE, installs it in the cache before its
attributes are read, reads attributes then children, and removes it from
the cache if either fails. -/
def readDIETreeHelperF : Nat → DwData → DwUnit → Reader → Endian →
    Option Nat → DwState → GoOut (Option Nat × Reader) × DwState
  | 0, _, _, _, _, _, st => (.noFuel, st)
  | fuel + 1, d, u, r, en, parent, st =>
    let offset := r.size - r.len
    match st.dieMap offset with
    | some dieId =>
      let st1 := st.updateDie dieId (fun dRec => { dRec with Parent := parent })
      let endOff :=
        match st.dies.get? dieId with
        | some dRec => dRec.endOffset
        | none => 0
      (.ok (some dieId, r.seek endOff), st1)
    | none =>
      match loadAbbrevTable fuel d u st with
      | (.err e, st1) => (.err e, st1)
      | (.goPanic, st1) => (.goPanic, st1)
      | (.noFuel, st1) => (.noFuel, st1)
      | (.ok abbrevTable, st1) =>
        match ReadUnsigned r with
        | none => (.err (.msg "Error reading abbrev code of a DIE."), st1)
        | some (abbrevCode, r1) =>
          if abbrevCode == 0 then
            (.ok (none, r1), st1)
          else
            match abbrevTable abbrevCode with
            | none => (.err (.msg "Invalid abbrev code for a DIE."), st1)
            | some abbrevEntry =>
              let dieId := st1.dies.length
              let st2 : DwState := installDie st1 offset abbrevEntry.Tag parent
              match readAttrsLoopF fuel d u abbrevEntry.AttrForms r1 en st2 [] with
              | (.err e, st3) =>
                (.err (.wrap "Error reading value of attribute of tag at offset." e),
                  deleteDie st3 offset)
              | (.goPanic, st3) => (.goPanic, st3)
              | (.noFuel, st3) => (.noFuel, st3)
              | (.ok (attributes, r2), st3) =>
                let st4 := st3.updateDie dieId
                  (fun dRec => { dRec with Attributes := attributes })
                match
                  (if abbrevEntry.HasChildren then
                    childrenLoopF fuel d u r2 en dieId st4
                  else
                    (.ok r2, st4)) with
                | (.err e, st5) =>
                  (.err (.wrap "Error reading child DIE tree of tag at offset." e),
                    deleteDie st5 offset)
                | (.goPanic, st5) => (.goPanic, st5)
                | (.noFuel, st5) => (.noFuel, st5)
                | (.ok r3, st5) =>
                  let st6 := st5.updateDie dieId
                    (fun dRec => { dRec with endOffset := r3.size - r3.len })
                  (.ok (some dieId, r3), st6)
termination_by structural fuel _ _ _ _ _ _ => fuel

/-- The children loop of readDIETreeHelper: decode children until the null
sentinel, appending each to the parent's child list. -/
def childrenLoopF : Nat → DwData → DwUnit → Reader → Endian → Nat → DwState →
    GoOut Reader × DwState
  | 0, _, _, _, _, _, st => (.noFuel, st)
  | fuel + 1, d, u, r, en, dieId, st =>
    match readDIETreeHelperF fuel d u r en (some dieId) st with
    | (.err e, st1) => (.err e, st1)
    | (.goPanic, st1) => (.goPanic, st1)
    | (.noFuel, st1) => (.noFuel, st1)
    | (.ok (childDie, r1), st1) =>
      match childDie with
      | none => (.ok r1, st1)
      | some childId =>
        let st2 := st1.updateDie dieId
          (fun dRec => { dRec with Children := dRec.Children ++ [childId] })
        childrenLoopF fuel d u r1 en dieId st2
termination_by structural fuel _ _ _ _ _ _ => fuel

/-- The attribute loop of readDIETreeHelper: read each declared (name, form)
pair into the attribute map. -/
def readAttrsLoopF : Nat → DwData → DwUnit → List AttrForm → Reader → Endian →
    DwState → List (Nat × AttrValue) → GoOut (List (Nat × AttrValue) × Reader) × DwState
  | 0, _, _, _, _, _, st, _ => (.noFuel, st)
  | _ + 1, _, _, [], r, _, st, acc => (.ok (acc, r), st)
  | fuel + 1, d, u, af :: rest, r, en, st, acc =>
    match readAttrF fuel d u r af.Name af.Form en st with
    | (.err e, st1) => (.err e, st1)
    | (.goPanic, st1) => (.goPanic, st1)
    | (.noFuel, st1) => (.noFuel, st1)
    | (.ok (value, r1), st1) =>
      readAttrsLoopF fuel d u rest r1 en st1 (attrInsert acc af.Name value)
termination_by structural fuel _ _ _ _ _ _ _ => fuel

/-- DwData.readAttrRef: read the unit-local offset per reference form, then
decode the DIE tree at unit.headerOffset + offset.  As in the source, a
failure of that decode is wrapped into err and then dropped: the final
return is (dieTree, nil) in every case. -/
def readAttrRefF : Nat → DwData → DwUnit → Reader → DwForm → Endian → DwState →
    GoOut (Option Nat × Reader) × DwState
  | 0, _, _, _, _, _, st => (.noFuel, st)
  | fuel + 1, d, u, r, f, en, st =>
    let offRes : GoOut (Nat × Reader) :=
      if f == DW_FORM_ref1 then
        match r.readByte with
        | none => .err (.wrap "Error reading form data." .eof)
        | some (b, r') => .ok (b, r')
      else if f == DW_FORM_ref2 then
        match r.readUint en 2 with
        | none => .err (.wrap "Error reading form data." .eof)
        | some (i, r') => .ok (i, r')
      else if f == DW_FORM_ref4 then
        match r.readUint en 4 with
        | none => .err (.wrap "Error reading form data." .eof)
        | some (i, r') => .ok (i, r')
      else if f == DW_FORM_ref8 then
        match r.readUint en 8 with
        | none => .err (.wrap "Error reading form data." .eof)
        | some (i, r') => .ok (i, r')
      else if f == DW_FORM_ref_udata then
        match ReadUnsigned r with
        | none => .err (.wrap "Error reading form data." .eof)
        | some (i, r') => .ok (i, r')
      else
        .err (.msg "Cannot read form data as a reference.")
    match offRes with
    | .err e => (.err e, st)
    | .goPanic => (.goPanic, st)
    | .noFuel => (.noFuel, st)
    | .ok (offset, r') =>
      match readDIETreeF fuel d u (u.headerOffset + offset) st with
      | (.ok dieTree, st1) => (.ok (dieTree, r'), st1)
      | (.err _, st1) => (.ok (none, r'), st1)
      | (.goPanic, st1) => (.goPanic, st1)
      | (.noFuel, st1) => (.noFuel, st1)
termination_by structural fuel _ _ _ _ _ _ => fuel

/-- DwData.readAttr: dispatch on the attribute name.  The source's switch is
tabulated by `attrAction` (one arm per Go case, in source order); this
function performs the read the selected arm prescribes. -/
def readAttrF : Nat → DwData → DwUnit → Reader → DwAt → DwForm → Endian →
    DwState → GoOut (AttrValue × Reader) × DwState
  | 0, _, _, _, _, _, _, st => (.noFuel, st)
  | fuel + 1, d, u, r, at', form, en, st =>
    match attrAction at' form with
    | .actRef => mapRefVal (readAttrRefF fuel d u r form en st)
    | .actLocList => liftPure st (readAttrLocList d u r form en fuel) .loclist
    | .actExpr => liftPure st (readSizeAndDwExpr d u r en fuel) .expr
    | .actStr => liftPure st (readAttrStr d u r form en) .str
    | .actEnum mk =>
      match r.readByte with
      | none => (.err .eof, st)
      | some (v, r') => (.ok (mk v, r'), st)
    | .actFlag => liftPure st (readAttrFlag u r form en) .flag
    | .actLang => liftPure st (readAttrUint16 u r form en) .lang
    | .actU32 => liftPure st (readAttrUint32 u r form en) .u32
    | .actU64 => liftPure st (readAttrUint64 u r form en) .u64
    | .actI64 => liftPure st (readAttrInt64 u r form en) .i64
    | .actBlock => liftPure st (readAttrByteSlice d u r form en) .block
    | .actRangeList => liftPure st (readAttrRangeList d u r form en fuel) .rangelist
    | .actErr m => (.err (.msg m), st)
termination_by structural fuel _ _ _ _ _ _ _ => fuel

end

/-! ## The offset-to-DIE cache invariants (C6) -/

/-- Cache well-formedness: every cached id points into the store, and no DIE
id is cached under two different offsets (each DIE occurs at most once). -/
def DwStateInv (st : DwState) : Prop :=
  (∀ o i, st.dieMap o = some i → i < st.dies.length) ∧
  (∀ o1 o2 i, st.dieMap o1 = some i → st.dieMap o2 = some i → o1 = o2)

/-- Every binding of the first cache survives into the second: a lookup that
returned a node keeps returning that node. -/
def MapExtends (st st' : DwState) : Prop :=
  ∀ o i, st.dieMap o = some i → st'.dieMap o = some i

/-- The decoder-step property: starting from a well-formed state, the state
afterwards is well-formed, existing bindings survive, and the store only
grows. -/
def StPres (st st' : DwState) : Prop :=
  DwStateInv st → DwStateInv st' ∧ MapExtends st st' ∧ st.dies.length ≤ st'.dies.length

theorem stPres_refl (st : DwState) : StPres st st :=
  fun h => ⟨h, fun _ _ hb => hb, Nat.le_refl _⟩

theorem stPres_trans {st1 st2 st3 : DwState}
    (h12 : StPres st1 st2) (h23 : StPres st2 st3) : StPres st1 st3 := by
  intro hinv
  obtain ⟨hinv2, hext12, hlen12⟩ := h12 hinv
  obtain ⟨hinv3, hext23, hlen23⟩ := h23 hinv2
  exact ⟨hinv3, fun o i hb => hext23 o i (hext12 o i hb), Nat.le_trans hlen12 hlen23⟩

theorem updateDie_dieMap (st : DwState) (i : Nat) (f : DIERec → DIERec) :
    (st.updateDie i f).dieMap = st.dieMap := rfl

theorem updateDie_length (st : DwState) (i : Nat) (f : DIERec → DIERec) :
    (st.updateDie i f).dies.length = st.dies.length := by
  unfold DwState.updateDie
  rcases h : st.dies.get? i with _ | dRec <;> simp

theorem stPres_updateDie (st : DwState) (i : Nat) (f : DIERec → DIERec) :
    StPres st (st.updateDie i f) := by
  intro hinv
  refine ⟨⟨?_, ?_⟩, ?_, ?_⟩
  · intro o j hb
    rw [updateDie_dieMap] at hb
    rw [updateDie_length]
    exact hinv.1 o j hb
  · intro o1 o2 j h1 h2
    rw [updateDie_dieMap] at h1 h2
    exact hinv.2 o1 o2 j h1 h2
  · intro o j hb
    rw [updateDie_dieMap]
    exact hb
  · rw [updateDie_length]

theorem stPres_abbrev (st : DwState) (x : Option AbbrevTable) :
    StPres st { st with abbrevTable := x } :=
  fun h => ⟨h, fun _ _ hb => hb, Nat.le_refl _⟩

/-- Installing a freshly allocated DIE at a previously unbound offset. -/
theorem stPres_install (st : DwState) (offset tag : Nat) (parent : Option Nat)
    (hmiss : st.dieMap offset = none) :
    StPres st (installDie st offset tag parent) := by
  intro hinv
  unfold installDie
  refine ⟨⟨?_, ?_⟩, ?_, ?_⟩
  · intro o j hb
    simp only at hb
    by_cases ho : o = offset
    · rw [if_pos ho] at hb
      cases hb
      simp
    · rw [if_neg ho] at hb
      have := hinv.1 o j hb
      simp
      omega
  · intro o1 o2 j h1 h2
    simp only at h1 h2
    by_cases ho1 : o1 = offset <;> by_cases ho2 : o2 = offset
    · omega
    · rw [if_pos ho1] at h1
      rw [if_neg ho2] at h2
      cases h1
      have := hinv.1 o2 _ h2
      omega
    · rw [if_neg ho1] at h1
      rw [if_pos ho2] at h2
      cases h2
      have := hinv.1 o1 _ h1
      omega
    · rw [if_neg ho1] at h1
      rw [if_neg ho2] at h2
      exact hinv.2 o1 o2 j h1 h2
  · intro o j hb
    simp only
    by_cases ho : o = offset
    · rw [ho] at hb
      rw [hmiss] at hb
      cases hb
    · rw [if_neg ho]
      exact hb
  · simp

/-- Removing the erroring DIE's own binding (which did not exist at the start
of the erroring call) keeps the state well-formed and preserves the caller's
bindings. -/
theorem stPres_delete {st st3 : DwState} (offset : Nat)
    (hmiss : st.dieMap offset = none) (h : StPres st st3) :
    StPres st (deleteDie st3 offset) := by
  intro hinv
  unfold deleteDie
  obtain ⟨hinv3, hext, hlen⟩ := h hinv
  refine ⟨⟨?_, ?_⟩, ?_, ?_⟩
  · intro o j hb
    simp only at hb
    by_cases ho : o = offset
    · rw [if_pos ho] at hb; cases hb
    · rw [if_neg ho] at hb
      exact hinv3.1 o j hb
  · intro o1 o2 j h1 h2
    simp only at h1 h2
    by_cases ho1 : o1 = offset
    · rw [if_pos ho1] at h1; cases h1
    · by_cases ho2 : o2 = offset
      · rw [if_pos ho2] at h2; cases h2
      · rw [if_neg ho1] at h1
        rw [if_neg ho2] at h2
        exact hinv3.2 o1 o2 j h1 h2
  · intro o j hb
    simp only
    by_cases ho : o = offset
    · rw [ho, hmiss] at hb; cases hb
    · rw [if_neg ho]
      exact hext o j hb
  · exact hlen

theorem liftPure_snd {α : Type} (st : DwState) (g : GoOut (α × Reader))
    (f : α → AttrValue) : (liftPure st g f).2 = st := by
  rcases g with ⟨a, r⟩ | e | _ | _ <;> rfl

theorem mapRefVal_snd (p : GoOut (Option Nat × Reader) × DwState) :
    (mapRefVal p).2 = p.2 := by
  rcases p with ⟨out, st⟩
  rcases out with ⟨t, r'⟩ | e | _ | _ <;> rfl

theorem loadAbbrevTable_dieMap (fuel : Nat) (d : DwData) (u : DwUnit) (st : DwState) :
    (loadAbbrevTable fuel d u st).2.dieMap = st.dieMap := by
  unfold loadAbbrevTable
  cases st.abbrevTable
  · dsimp only
    cases d.AbbrevTable u.debugAbbrevOffset fuel <;> rfl
  · rfl

theorem stPres_loadAbbrev (fuel : Nat) (d : DwData) (u : DwUnit) (st : DwState) :
    StPres st (loadAbbrevTable fuel d u st).2 := by
  unfold loadAbbrevTable
  cases st.abbrevTable
  · dsimp only
    cases d.AbbrevTable u.debugAbbrevOffset fuel
    · exact stPres_abbrev st _
    · exact stPres_refl st
    · exact stPres_refl st
    · exact stPres_refl st
  · exact stPres_refl st

set_option maxHeartbeats 3200000 in
/-- Mutual preservation: every decoder entry point, from a well-formed state,
yields a well-formed state, keeps every existing cache binding, and only
grows the store. -/
theorem decodeStPres (fuel : Nat) :
    (∀ d u offset st, StPres st (readDIETreeF fuel d u offset st).2) ∧
    (∀ d u r en parent st, StPres st (readDIETreeHelperF fuel d u r en parent st).2) ∧
    (∀ d u r en dieId st, StPres st (childrenLoopF fuel d u r en dieId st).2) ∧
    (∀ d u afs r en st acc, StPres st (readAttrsLoopF fuel d u afs r en st acc).2) ∧
    (∀ d u r f en st, StPres st (readAttrRefF fuel d u r f en st).2) ∧
    (∀ d u r a f en st, StPres st (readAttrF fuel d u r a f en st).2) := by
  induction fuel with
  | zero =>
    refine ⟨?_, ?_, ?_, ?_, ?_, ?_⟩ <;> intros <;>
      simp only [readDIETreeF, readDIETreeHelperF, childrenLoopF, readAttrsLoopF,
        readAttrRefF, readAttrF] <;>
      exact stPres_refl _
  | succ n ih =>
    obtain ⟨ih1, ih2, ih3, ih4, ih5, ih6⟩ := ih
    refine ⟨?_, ?_, ?_, ?_, ?_, ?_⟩
    · -- readDIETreeF
      intro d u offset st
      simp only [readDIETreeF]
      cases hdi : d.debug_info with
      | none => exact stPres_refl st
      | some sections =>
        dsimp only
        split
        · exact stPres_refl st
        · cases hh : sections.head? with
          | none => exact stPres_refl st
          | some sect =>
            dsimp only
            cases hcall : readDIETreeHelperF n d u ((Reader.mk sect 0).seek offset)
                d.endianess none st with
            | mk out st' =>
              have hp := ih2 d u ((Reader.mk sect 0).seek offset) d.endianess none st
              rw [hcall] at hp
              rcases out with ⟨die, rr⟩ | e | _ | _ <;> exact hp
    · -- readDIETreeHelperF
      intro d u r en parent st
      simp only [readDIETreeHelperF]
      cases hhit : st.dieMap (r.size - r.len) with
      | some dieId =>
        dsimp only
        exact stPres_updateDie st dieId _
      | none =>
        dsimp only
        cases hld : loadAbbrevTable n d u st with
        | mk tblOut st1 =>
          have hmap1 : st1.dieMap = st.dieMap := by
            have h := loadAbbrevTable_dieMap n d u st
            rw [hld] at h
            exact h
          have hP1 : StPres st st1 := by
            have h := stPres_loadAbbrev n d u st
            rw [hld] at h
            exact h
          rcases tblOut with t | e | _ | _ <;> dsimp only
          · cases hru : ReadUnsigned r with
            | none => exact hP1
            | some p =>
              obtain ⟨abbrevCode, r1⟩ := p
              dsimp only
              by_cases hz : (abbrevCode == 0) = true
              · simp only [hz, if_true]
                exact hP1
              · simp only [hz, if_false]
                cases hae : t abbrevCode with
                | none => exact hP1
                | some abbrevEntry =>
                  dsimp only
                  have hmiss1 : st1.dieMap (r.size - r.len) = none := by
                    rw [hmap1]
                    exact hhit
                  have hP2 : StPres st
                      (installDie st1 (r.size - r.len) abbrevEntry.Tag parent) :=
                    stPres_trans hP1 (stPres_install st1 _ _ _ hmiss1)
                  cases hal : readAttrsLoopF n d u abbrevEntry.AttrForms r1 en
                      (installDie st1 (r.size - r.len) abbrevEntry.Tag parent) [] with
                  | mk out3 st3 =>
                    have hP3 : StPres st st3 := by
                      have h := ih4 d u abbrevEntry.AttrForms r1 en
                        (installDie st1 (r.size - r.len) abbrevEntry.Tag parent) []
                      rw [hal] at h
                      exact stPres_trans hP2 h
                    rcases out3 with ⟨attributes, r2⟩ | e | _ | _ <;> dsimp only
                    · have hP4 : StPres st (st3.updateDie st1.dies.length
                          (fun dRec => { dRec with Attributes := attributes })) :=
                        stPres_trans hP3 (stPres_updateDie st3 st1.dies.length _)
                      cases hch : (if abbrevEntry.HasChildren then
                          childrenLoopF n d u r2 en st1.dies.length
                            (st3.updateDie st1.dies.length
                              (fun dRec => { dRec with Attributes := attributes }))
                        else
                          (.ok r2, st3.updateDie st1.dies.length
                            (fun dRec => { dRec with Attributes := attributes }))) with
                      | mk out5 st5 =>
                        have hP5 : StPres st st5 := by
                          by_cases hc : abbrevEntry.HasChildren
                          · rw [if_pos hc] at hch
                            have h := ih3 d u r2 en st1.dies.length
                              (st3.updateDie st1.dies.length
                                (fun dRec => { dRec with Attributes := attributes }))
                            rw [hch] at h
                            exact stPres_trans hP4 h
                          · rw [if_neg hc] at hch
                            cases hch
                            exact hP4
                        rcases out5 with r3 | e | _ | _ <;> dsimp only
                        · exact stPres_trans hP5 (stPres_updateDie st5 st1.dies.length _)
                        · exact stPres_delete _ hhit hP5
                        · exact hP5
                        · exact hP5
                    · exact stPres_delete _ hhit hP3
                    · exact hP3
                    · exact hP3
          · exact hP1
          · exact hP1
          · exact hP1
    · -- childrenLoopF
      intro d u r en dieId st
      simp only [childrenLoopF]
      cases hcall : readDIETreeHelperF n d u r en (some dieId) st with
      | mk out st1 =>
        have hP1 : StPres st st1 := by
          have h := ih2 d u r en (some dieId) st
          rw [hcall] at h
          exact h
        rcases out with ⟨childDie, r1⟩ | e | _ | _ <;> dsimp only
        · cases childDie with
          | none => exact hP1
          | some childId =>
            dsimp only
            exact stPres_trans
              (stPres_trans hP1 (stPres_updateDie st1 dieId _))
              (ih3 d u r1 en dieId (st1.updateDie dieId
                (fun dRec => { dRec with Children := dRec.Children ++ [childId] })))
        · exact hP1
        · exact hP1
        · exact hP1
    · -- readAttrsLoopF
      intro d u afs r en st acc
      cases afs with
      | nil =>
        simp only [readAttrsLoopF]
        exact stPres_refl st
      | cons af rest =>
        simp only [readAttrsLoopF]
        cases hcall : readAttrF n d u r af.Name af.Form en st with
        | mk out st1 =>
          have hP1 : StPres st st1 := by
            have h := ih6 d u r af.Name af.Form en st
            rw [hcall] at h
            exact h
          rcases out with ⟨value, r1⟩ | e | _ | _ <;> dsimp only
          · exact stPres_trans hP1
              (ih4 d u rest r1 en st1 (attrInsert acc af.Name value))
          · exact hP1
          · exact hP1
          · exact hP1
    · -- readAttrRefF
      intro d u r f en st
      simp only [readAttrRefF]
      split
      · exact stPres_refl st
      · exact stPres_refl st
      · exact stPres_refl st
      · next offsetV rV hq =>
        cases hcall : readDIETreeF n d u (u.headerOffset + offsetV) st with
        | mk out st1 =>
          have h := ih1 d u (u.headerOffset + offsetV) st
          rw [hcall] at h
          rcases out with die | e | _ | _ <;> exact h
    · -- readAttrF
      intro d u r a f en st
      simp only [readAttrF]
      cases hact : attrAction a f <;> dsimp only
      case actRef =>
        rw [mapRefVal_snd]
        exact ih5 d u r f en st
      case actEnum mk =>
        rcases hbyte : r.readByte with _ | ⟨v, rp⟩ <;> exact stPres_refl st
      all_goals
        first
          | exact stPres_refl st
          | (rw [liftPure_snd]; exact stPres_refl st)

/-- The container state right after LoadDwData: empty offset-to-DIE cache,
empty store, no abbreviation table materialised yet. -/
def initialDwState : DwState := ⟨fun _ => none, [], none⟩

/-- Cache-hit determinism: when the offset is cached, the helper returns
exactly the cached id and leaves the cache untouched. -/
theorem helper_cache_hit (fuel : Nat) (d : DwData) (u : DwUnit) (r : Reader)
    (en : Endian) (parent : Option Nat) (st : DwState) (i : Nat)
    (h : st.dieMap (r.size - r.len) = some i) :
    (∃ r', (readDIETreeHelperF (fuel + 1) d u r en parent st).1 = .ok (some i, r')) ∧
    (readDIETreeHelperF (fuel + 1) d u r en parent st).2.dieMap = st.dieMap := by
  simp only [readDIETreeHelperF, h]
  exact ⟨⟨_, rfl⟩, rfl⟩

/-- C6: the offset-to-DIE cache keeps each DIE at most once (no two offsets
share a store id), every binding survives decoding (so two lookups of the
same offset, including re-entrant ones during cyclic reference resolution,
return the identical node), and a cache hit returns exactly the cached node
without touching the cache. -/
theorem c6_die_cache_identity :
    (∀ fuel d u offset st, DwStateInv st →
        DwStateInv (readDIETreeF fuel d u offset st).2 ∧
        MapExtends st (readDIETreeF fuel d u offset st).2) ∧
    (∀ fuel d u r en parent st, DwStateInv st →
        DwStateInv (readDIETreeHelperF fuel d u r en parent st).2 ∧
        MapExtends st (readDIETreeHelperF fuel d u r en parent st).2) ∧
    (∀ fuel d u r en parent st i, st.dieMap (r.size - r.len) = some i →
        (∃ r', (readDIETreeHelperF (fuel + 1) d u r en parent st).1 = .ok (some i, r')) ∧
        (readDIETreeHelperF (fuel + 1) d u r en parent st).2.dieMap = st.dieMap) := by
  refine ⟨?_, ?_, ?_⟩
  · intro fuel d u offset st hinv
    obtain ⟨a, b, _⟩ := (decodeStPres fuel).1 d u offset st hinv
    exact ⟨a, b⟩
  · intro fuel d u r en parent st hinv
    obtain ⟨a, b, _⟩ := (decodeStPres fuel).2.1 d u r en parent st hinv
    exact ⟨a, b⟩
  · exact fun fuel d u r en parent st i h => helper_cache_hit fuel d u r en parent st i h

/-- Witness for C6: decoding the five-byte two-children unit of the
repository model keeps the cache well-formed, and a helper call at a state
that caches offset 1 as id 5 returns id 5 and the unchanged cache. -/
theorem c6_die_cache_identity_witness :
    (DwStateInv (readDIETreeF 20
        ⟨some [[1, 2, 3, 1, 0]],
         some [[1, 17, 1, 0, 0, 2, 36, 0, 0, 0, 3, 52, 0, 73, 17, 0, 0, 0]],
         none, none, none, 8, .little⟩
        ⟨DW_UT_compile, .format32, 8, 4, 11, 0, 0, 0⟩ 0 initialDwState).2 ∧
      MapExtends initialDwState (readDIETreeF 20
        ⟨some [[1, 2, 3, 1, 0]],
         some [[1, 17, 1, 0, 0, 2, 36, 0, 0, 0, 3, 52, 0, 73, 17, 0, 0, 0]],
         none, none, none, 8, .little⟩
        ⟨DW_UT_compile, .format32, 8, 4, 11, 0, 0, 0⟩ 0 initialDwState).2) ∧
    ((∃ r', (readDIETreeHelperF 3
        ⟨some [[1, 2, 3, 1, 0]],
         some [[1, 17, 1, 0, 0, 2, 36, 0, 0, 0, 3, 52, 0, 73, 17, 0, 0, 0]],
         none, none, none, 8, .little⟩
        ⟨DW_UT_compile, .format32, 8, 4, 11, 0, 0, 0⟩ ⟨[0, 0], 1⟩ .little none
        ⟨fun o => if o = 1 then some 5 else none, [], none⟩).1 = .ok (some 5, r')) ∧
      (readDIETreeHelperF 3
        ⟨some [[1, 2, 3, 1, 0]],
         some [[1, 17, 1, 0, 0, 2, 36, 0, 0, 0, 3, 52, 0, 73, 17, 0, 0, 0]],
         none, none, none, 8, .little⟩
        ⟨DW_UT_compile, .format32, 8, 4, 11, 0, 0, 0⟩ ⟨[0, 0], 1⟩ .little none
        ⟨fun o => if o = 1 then some 5 else none, [], none⟩).2.dieMap
        = (⟨fun o => if o = 1 then some 5 else none, [], none⟩ : DwState).dieMap) :=
  ⟨c6_die_cache_identity.1 20
      ⟨some [[1, 2, 3, 1, 0]],
       some [[1, 17, 1, 0, 0, 2, 36, 0, 0, 0, 3, 52, 0, 73, 17, 0, 0, 0]],
       none, none, none, 8, .little⟩
      ⟨DW_UT_compile, .format32, 8, 4, 11, 0, 0, 0⟩ 0 initialDwState
      ⟨fun _ _ h => Option.noConfusion h, fun _ _ _ h1 _ => Option.noConfusion h1⟩,
    c6_die_cache_identity.2.2 2
      ⟨some [[1, 2, 3, 1, 0]],
       some [[1, 17, 1, 0, 0, 2, 36, 0, 0, 0, 3, 52, 0, 73, 17, 0, 0, 0]],
       none, none, none, 8, .little⟩
      ⟨DW_UT_compile, .format32, 8, 4, 11, 0, 0, 0⟩ ⟨[0, 0], 1⟩ .little none
      ⟨fun o => if o = 1 then some 5 else none, [], none⟩ 5 rfl⟩

/-- C2: readAttrRef does not return the decode error to its caller.  On a
ref1 attribute whose target holds abbreviation code 5 (absent from the
table), the nested readDIETree fails with the invalid-abbrev-code error, yet
readAttrRef returns a nil DIE with a nil error: the wrapped error is
assigned and then dropped by `return dieTree, nil`. -/
theorem c2_ref_error_swallowed :
    (readAttrRefF 10
        ⟨some [[5, 0]], some [[1, 36, 0, 0, 0, 0]], none, none, none, 8, .little⟩
        ⟨DW_UT_compile, .format32, 8, 4, 6, 0, 0, 0⟩
        ⟨[5, 0], 1⟩ DW_FORM_ref1 .little initialDwState).1
      = .ok (none, ⟨[5, 0], 2⟩) ∧
    (readDIETreeF 9
        ⟨some [[5, 0]], some [[1, 36, 0, 0, 0, 0]], none, none, none, 8, .little⟩
        ⟨DW_UT_compile, .format32, 8, 4, 6, 0, 0, 0⟩ 0 initialDwState).1
      = .err (.msg "Invalid abbrev code for a DIE.") := by
  constructor
  · decide
  · decide

/-- C3: resolving a reference to an already-decoded DIE overwrites that
DIE's parent link with nil.  In a unit whose root has two children, the
second child's DW_AT_type ref1 attribute targets the first child; after
decoding, the first child (store id 1) is in the root's children list, yet
its Parent is nil: c.parent = p if and only if c is in p.children is
violated. -/
theorem c3_ref_rewires_parent_to_nil :
    ((readDIETreeF 20
        ⟨some [[1, 2, 3, 1, 0]],
         some [[1, 17, 1, 0, 0, 2, 36, 0, 0, 0, 3, 52, 0, 73, 17, 0, 0, 0]],
         none, none, none, 8, .little⟩
        ⟨DW_UT_compile, .format32, 8, 4, 11, 0, 0, 0⟩ 0 initialDwState).2.dies.get? 1).map
        DIERec.Parent = some none ∧
    ((readDIETreeF 20
        ⟨some [[1, 2, 3, 1, 0]],
         some [[1, 17, 1, 0, 0, 2, 36, 0, 0, 0, 3, 52, 0, 73, 17, 0, 0, 0]],
         none, none, none, 8, .little⟩
        ⟨DW_UT_compile, .format32, 8, 4, 11, 0, 0, 0⟩ 0 initialDwState).2.dies.get? 0).map
        DIERec.Children = some [1, 2] ∧
    ((readDIETreeF 20
        ⟨some [[1, 2, 3, 1, 0]],
         some [[1, 17, 1, 0, 0, 2, 36, 0, 0, 0, 3, 52, 0, 73, 17, 0, 0, 0]],
         none, none, none, 8, .little⟩
        ⟨DW_UT_compile, .format32, 8, 4, 11, 0, 0, 0⟩ 0 initialDwState).2.dies.get? 2).map
        DIERec.Attributes = some [(DW_AT_type, .die (some 1))] := by
  refine ⟨?_, ?_, ?_⟩
  · decide
  · decide
  · decide

/-! ## Line-number program decoding (readLineNumberInfo, C10) -/

/-- Modelled from the spec: DW_LNE_end_sequence (the Go constants file is not
in the sources). -/
def DW_LNE_end_sequence : Nat := 0x01

/-- Modelled from the spec: DW_LNE_set_address. -/
def DW_LNE_set_address : Nat := 0x02

/-- Modelled from the spec: DW_LNE_define_file. -/
def DW_LNE_define_file : Nat := 0x03

/-- Modelled from the spec: DW_LNE_set_discriminator. -/
def DW_LNE_set_discriminator : Nat := 0x04

/-- Modelled from the spec: DW_LNS_copy. -/
def DW_LNS_copy : Nat := 0x01

/-- Modelled from the spec: DW_LNS_advance_pc. -/
def DW_LNS_advance_pc : Nat := 0x02

/-- Modelled from the spec: DW_LNS_advance_line. -/
def DW_LNS_advance_line : Nat := 0x03

/-- Modelled from the spec: DW_LNS_set_file. -/
def DW_LNS_set_file : Nat := 0x04

/-- Modelled from the spec: DW_LNS_set_column. -/
def DW_LNS_set_column : Nat := 0x05

/-- Modelled from the spec: DW_LNS_negate_stmt. -/
def DW_LNS_negate_stmt : Nat := 0x06

/-- Modelled from the spec: DW_LNS_set_basic_block. -/
def DW_LNS_set_basic_block : Nat := 0x07

/-- Modelled from the spec: DW_LNS_const_add_pc. -/
def DW_LNS_const_add_pc : Nat := 0x08

/-- Modelled from the spec: DW_LNS_fixed_advance_pc. -/
def DW_LNS_fixed_advance_pc : Nat := 0x09

/-- Modelled from the spec: DW_LNS_set_prologue_end. -/
def DW_LNS_set_prologue_end : Nat := 0x0a

/-- Modelled from the spec: DW_LNS_set_epilogue_begin. -/
def DW_LNS_set_epilogue_begin : Nat := 0x0b

/-- Modelled from the spec: DW_LNS_set_isa. -/
def DW_LNS_set_isa : Nat := 0x0c

/-- garf.go type DwLnOpcodeType: the opcode class recorded in an LnInstr.
The Go type is a uint8 enum with constants DwLnOpcodeSpecial = 1,
DwLnOpcodeStd = 2 and DwLnOpcodeExt = 3; it is embedded as an inductive with
one constructor per constant. -/
inductive DwLnOpcodeType : Type where
  | Std : DwLnOpcodeType
  | Ext : DwLnOpcodeType
  | Special : DwLnOpcodeType
deriving DecidableEq, Repr

/-- garf.go type LnInstr: one decoded line-number program instruction.
Opcode has Go type DwLnOpcode, a numeric type whose declaration is not in
the sources, embedded as Nat; Operands is a []leb128.LEB128, each operand a
raw LEB128 byte sequence. -/
structure LnInstr : Type where
  Opcode : Nat
  OpcodeType : DwLnOpcodeType
  Operands : List (List Nat)
deriving DecidableEq, Repr

/-- Modelled from the spec: leb128.Encode of an unsigned value (the Encode
function is not in the sources): emit 7 bits per byte, little-endian, high
bit set on every byte but the last. -/
def lebEncodeLoop : Nat → Nat → List Nat
  | 0, _ => []
  | fuel + 1, n =>
    if n < 128 then [n] else (n % 128 + 128) :: lebEncodeLoop fuel (n / 128)

/-- Modelled from the spec: leb128.Encode for values below 2^64 (ten
output bytes suffice). -/
def lebEncode (n : Nat) : List Nat := lebEncodeLoop 10 n

/-- The program loop of readLineNumberInfo (part_000 lines 250-399): while
the bytes consumed since the start of the unit stay below the unit size,
read an opcode byte; 0 starts an extended instruction (a LEB128 size that is
read and discarded, a sub-opcode byte, then the per-sub-opcode operand
reads), a byte below opcodeBase is a standard instruction, anything else a
special instruction; each decoded instruction is appended to the program. -/
def readLnProgramLoop : Nat → Nat → Nat → Nat → Nat → Endian → Reader →
    List LnInstr → GoOut (List LnInstr × Reader)
  | 0, _, _, _, _, _, _, _ => .noFuel
  | fuel + 1, size, initLen, opcodeBase, addrSize, en, r, prog =>
    if initLen - r.len < size then
      match r.readByte with
      | none =>
        .err (.wrap "Error reading opcode of a line program instruction." .eof)
      | some (b, r1) =>
        if b == 0 then
          match lebRead r1 with
          | none =>
            .err (.wrap "Error reading extension opcode instruction size." .eof)
          | some (_, r2) =>
            match r2.readByte with
            | none =>
              .err (.wrap "Error reading extension opcode from line program." .eof)
            | some (sb, r3) =>
              if sb == DW_LNE_end_sequence then
                readLnProgramLoop fuel size initLen opcodeBase addrSize en r3
                  (prog ++ [⟨sb, .Ext, []⟩])
              else if sb == DW_LNE_set_address then
                let addrRes : GoOut (Nat × Reader) :=
                  if addrSize == 1 then
                    match r3.readByte with
                    | none => .err .eof
                    | some (a, r4) => .ok (a, r4)
                  else if addrSize == 2 then
                    match r3.readUint en 2 with
                    | none => .err .eof
                    | some (a, r4) => .ok (a, r4)
                  else if addrSize == 4 then
                    match r3.readUint en 4 with
                    | none => .err .eof
                    | some (a, r4) => .ok (a, r4)
                  else if addrSize == 8 then
                    match r3.readUint en 8 with
                    | none => .err .eof
                    | some (a, r4) => .ok (a, r4)
                  else
                    .err (.msg "Unsupported address size in DW_LNE_set_address.")
                match addrRes with
                | .err e =>
                  .err (.wrap "Error reading operand of DW_LNE_set_address." e)
                | .goPanic => .goPanic
                | .noFuel => .noFuel
                | .ok (addr, r4) =>
                  readLnProgramLoop fuel size initLen opcodeBase addrSize en r4
                    (prog ++ [⟨sb, .Ext, [lebEncode addr]⟩])
              else if sb == DW_LNE_define_file then
                .err (.msg "Unsupported extended opcode in line number program.")
              else if sb == DW_LNE_set_discriminator then
                match lebRead r3 with
                | none =>
                  .err (.wrap "Error reading operand of DW_LNE_set_discriminator." .eof)
                | some (operand, r4) =>
                  readLnProgramLoop fuel size initLen opcodeBase addrSize en r4
                    (prog ++ [⟨sb, .Ext, [operand]⟩])
              else
                readLnProgramLoop fuel size initLen opcodeBase addrSize en r3
                  (prog ++ [⟨sb, .Ext, []⟩])
        else if b < opcodeBase then
          if b == DW_LNS_copy || b == DW_LNS_negate_stmt ||
              b == DW_LNS_set_basic_block || b == DW_LNS_const_add_pc ||
              b == DW_LNS_set_prologue_end || b == DW_LNS_set_epilogue_begin then
            readLnProgramLoop fuel size initLen opcodeBase addrSize en r1
              (prog ++ [⟨b, .Std, []⟩])
          else if b == DW_LNS_advance_pc || b == DW_LNS_advance_line ||
              b == DW_LNS_set_file || b == DW_LNS_set_column ||
              b == DW_LNS_set_isa then
            match lebRead r1 with
            | none =>
              .err (.wrap "Error reading operand of std line program opcode." .eof)
            | some (operand, r2) =>
              readLnProgramLoop fuel size initLen opcodeBase addrSize en r2
                (prog ++ [⟨b, .Std, [operand]⟩])
          else if b == DW_LNS_fixed_advance_pc then
            match r1.readUint en 2 with
            | none =>
              .err (.wrap "Error reading operand of DW_LNS_fixed_advance_pc." .eof)
            | some (operand16, r2) =>
              readLnProgramLoop fuel size initLen opcodeBase addrSize en r2
                (prog ++ [⟨b, .Std, [lebEncode operand16]⟩])
          else
            readLnProgramLoop fuel size initLen opcodeBase addrSize en r1
              (prog ++ [⟨b, .Std, []⟩])
        else
          readLnProgramLoop fuel size initLen opcodeBase addrSize en r1
            (prog ++ [⟨b, .Special, []⟩])
    else
      .ok (prog, r)

/-- C10: on an extended line-program instruction whose sub-opcode is none of
end_sequence, set_address, define_file or set_discriminator, the program
loop does not fail: it consumes the LEB128 instruction-size field and the
sub-opcode byte, appends the instruction with an empty operand list, and
resumes decoding directly after the sub-opcode byte — the declared size is
discarded, not used to skip the instruction's operand bytes. -/
theorem c10_unknown_extended_opcode (fuel size initLen opcodeBase addrSize : Nat)
    (en : Endian) (r r1 r2 r3 : Reader) (prog : List LnInstr)
    (szBytes : List Nat) (sb : Nat)
    (hrun : initLen - r.len < size)
    (hb : r.readByte = some (0, r1))
    (hsz : lebRead r1 = some (szBytes, r2))
    (hsb : r2.readByte = some (sb, r3))
    (h1 : sb ≠ DW_LNE_end_sequence) (h2 : sb ≠ DW_LNE_set_address)
    (h3 : sb ≠ DW_LNE_define_file) (h4 : sb ≠ DW_LNE_set_discriminator) :
    readLnProgramLoop (fuel + 1) size initLen opcodeBase addrSize en r prog
      = readLnProgramLoop fuel size initLen opcodeBase addrSize en r3
          (prog ++ [⟨sb, .Ext, []⟩]) := by
  simp only [readLnProgramLoop, if_pos hrun, hb, hsz, hsb]
  simp [h1, h2, h3, h4]

/-- Witness for C10: the three-byte program fragment 00 00 05 inside a
three-byte unit is an extended instruction of declared size 0 with unknown
sub-opcode 5; one loop step appends it with no operands and continues at
position 3. -/
theorem c10_unknown_extended_opcode_witness :
    ((3 : Nat) - (Reader.mk [0, 0, 5] 0).len < 3) ∧
    (Reader.mk [0, 0, 5] 0).readByte = some (0, Reader.mk [0, 0, 5] 1) ∧
    lebRead (Reader.mk [0, 0, 5] 1) = some ([0], Reader.mk [0, 0, 5] 2) ∧
    (Reader.mk [0, 0, 5] 2).readByte = some (5, Reader.mk [0, 0, 5] 3) ∧
    readLnProgramLoop 6 3 3 13 8 .little (Reader.mk [0, 0, 5] 0) []
      = readLnProgramLoop 5 3 3 13 8 .little (Reader.mk [0, 0, 5] 3)
          [⟨5, .Ext, []⟩] :=
  ⟨by decide, by decide, by decide, by decide,
    c10_unknown_extended_opcode 5 3 3 13 8 .little
      (Reader.mk [0, 0, 5] 0) (Reader.mk [0, 0, 5] 1) (Reader.mk [0, 0, 5] 2)
      (Reader.mk [0, 0, 5] 3) [] [0] 5
      (by decide) (by decide) (by decide) (by decide)
      (by decide) (by decide) (by decide) (by decide)⟩

end Eureka
